import Mathlib

/-!
Verification development for the RepairConnect provider-assignment engine.

The discrete part embeds the data model (service requests, provider
profiles, category memberships, notifications, status history), the
database triggers from the SQL migrations (status-history logging and
timestamp filling), and the two edge functions (single-request assignment
and batch assignment of pending requests to a newly available provider),
as pure functions over an explicit database state.  Distances computed by
the edge functions are abstracted by a rational-valued oracle passed as a
parameter; the floating-point haversine calculator itself is embedded
separately over the real numbers and analysed with interval arithmetic.
-/

/-- Status enum of `service_requests.status` (request_status in SQL). -/
inductive RequestStatus where
  | pending
  | assigned
  | in_progress
  | completed
  | cancelled
  deriving DecidableEq, Repr

/-- Row of table `profiles`: identity plus optional coordinate. -/
structure Profile where
  id : Nat
  name : String
  location_lat : Option ℚ
  location_lng : Option ℚ
  deriving DecidableEq, Repr

/-- Row of table `provider_profiles`. -/
structure ProviderProfile where
  id : Nat
  user_id : Nat
  is_available : Bool
  service_area_radius_km : Option ℚ
  deriving DecidableEq, Repr

/-- Row of junction table `provider_categories`. -/
structure ProviderCategory where
  provider_profile_id : Nat
  category_id : Nat
  deriving DecidableEq, Repr

/-- Roles of `user_roles.role` (app_role in SQL). -/
inductive AppRole where
  | admin
  | resident
  | provider
  deriving DecidableEq, Repr

/-- Row of table `user_roles`. -/
structure UserRole where
  user_id : Nat
  role : AppRole
  deriving DecidableEq, Repr

/-- Row of table `service_requests` (fields the engine reads or writes). -/
structure ServiceRequest where
  id : Nat
  resident_id : Nat
  category_id : Nat
  provider_id : Option Nat
  status : RequestStatus
  location_lat : ℚ
  location_lng : ℚ
  assigned_at : Option ℚ
  completed_at : Option ℚ
  deriving DecidableEq, Repr

/-- Row of table `request_status_history`. -/
structure HistoryRow where
  request_id : Nat
  status : RequestStatus
  changed_by : Option Nat
  notes : Option String
  deriving DecidableEq, Repr

/-- Row of table `notifications` (fields written by the engine). -/
structure Notification where
  user_id : Nat
  title : String
  message : String
  type : String
  related_request_id : Option Nat
  deriving DecidableEq, Repr

/-- The database state the assignment engine reads and writes. -/
structure Database where
  service_requests : List ServiceRequest
  provider_categories : List ProviderCategory
  provider_profiles : List ProviderProfile
  profiles : List Profile
  user_roles : List UserRole
  notifications : List Notification
  request_status_history : List HistoryRow
  deriving DecidableEq, Repr

/-- BEFORE UPDATE trigger `update_request_timestamps` (final migration):
fills `assigned_at` when the new row is `assigned` with a null timestamp,
else fills `completed_at` when the new row is `completed` with a null
timestamp.  `now` is the database clock. -/
def update_request_timestamps (now : ℚ) (row : ServiceRequest) : ServiceRequest :=
  if row.status = RequestStatus.assigned ∧ row.assigned_at = none then
    { row with assigned_at := some now }
  else if row.status = RequestStatus.completed ∧ row.completed_at = none then
    { row with completed_at := some now }
  else
    row

/-- New value of one `service_requests` row under an UPDATE statement:
rows matching `cond` get the SET clause `set` applied and then pass
through the BEFORE UPDATE timestamp trigger; other rows are unchanged. -/
def applyUpdateRow (cond : ServiceRequest → Bool) (set : ServiceRequest → ServiceRequest)
    (now : ℚ) (row : ServiceRequest) : ServiceRequest :=
  if cond row then update_request_timestamps now (set row) else row

/-- History row appended by the AFTER trigger `log_request_status_change`
for one transitioned row: `changed_by` is COALESCE(auth.uid(), NEW.resident_id). -/
def historyEntry (uid : Option Nat) (row : ServiceRequest) : HistoryRow :=
  { request_id := row.id
    status := row.status
    changed_by := some (uid.getD row.resident_id)
    notes := none }

/-- History rows appended by the AFTER UPDATE trigger for one UPDATE
statement: one row for each matching row whose status actually changed. -/
def historyDelta (rows : List ServiceRequest) (cond : ServiceRequest → Bool)
    (set : ServiceRequest → ServiceRequest) (uid : Option Nat) (now : ℚ) : List HistoryRow :=
  rows.filterMap (fun row =>
    let newRow := applyUpdateRow cond set now row
    if cond row ∧ row.status ≠ newRow.status then some (historyEntry uid newRow) else none)

/-- An UPDATE statement on `service_requests` together with its triggers:
every matching row is rewritten (SET clause, then timestamp trigger), and
the AFTER UPDATE trigger appends exactly one `request_status_history` row
for each matching row whose status actually changed. -/
def updateServiceRequests (db : Database) (cond : ServiceRequest → Bool)
    (set : ServiceRequest → ServiceRequest) (uid : Option Nat) (now : ℚ) : Database :=
  { db with
      service_requests := db.service_requests.map (applyUpdateRow cond set now)
      request_status_history := db.request_status_history ++
        historyDelta db.service_requests cond set uid now }

/-- An INSERT statement on `service_requests` together with its AFTER
INSERT trigger, which always appends exactly one history row. -/
def insertServiceRequest (db : Database) (row : ServiceRequest) (uid : Option Nat) : Database :=
  { db with
      service_requests := db.service_requests ++ [row]
      request_status_history := db.request_status_history ++ [historyEntry uid row] }

/-- Candidate record built by the single-request assignment function
(providerId, providerName, distance, serviceRadius).  `serviceRadius` is
`none` when the column is null (`parseFloat` of null is NaN). -/
structure ProviderSummary where
  providerId : Nat
  providerName : String
  distance : ℚ
  serviceRadius : Option ℚ
  deriving DecidableEq, Repr

/-- Ordering used by the comparator `(a, b) => a.distance - b.distance`. -/
def distLe (a b : ProviderSummary) : Prop := a.distance ≤ b.distance

instance : DecidableRel distLe := fun a b => inferInstanceAs (Decidable (a.distance ≤ b.distance))

instance : IsTotal ProviderSummary distLe := ⟨fun a b => le_total a.distance b.distance⟩

instance : IsTrans ProviderSummary distLe := ⟨fun _ _ _ h h2 => le_trans h h2⟩

/-- The eligibility test `p.distance <= p.serviceRadius`: false for a null
radius (a NaN comparison in the source is false). -/
def radiusOk (p : ProviderSummary) : Bool :=
  match p.serviceRadius with
  | some r => decide (p.distance ≤ r)
  | none => false

/-- Mapping step of the candidate pipeline: join each available provider
profile with its user profile, drop providers without a profile or without
both coordinates, and record the computed distance to the request.  `d` is
the distance oracle standing for `calculateDistance`. -/
def candidateRecords (request : ServiceRequest) (d : ℚ → ℚ → ℚ → ℚ → ℚ)
    (providerProfiles : List ProviderProfile) (profiles : List Profile) :
    List ProviderSummary :=
  providerProfiles.filterMap (fun provider =>
    match profiles.find? (fun p => decide (p.id = provider.user_id)) with
    | none => none
    | some profile =>
      match profile.location_lat, profile.location_lng with
      | some plat, some plng =>
        some { providerId := provider.id
               providerName := profile.name
               distance := d request.location_lat request.location_lng plat plng
               serviceRadius := provider.service_area_radius_km }
      | _, _ => none)

/-- The `providersWithDistance` pipeline of the single-request assignment
function: map to candidate records, keep those within their service radius
and sort ascending by distance. -/
def providersWithDistance (request : ServiceRequest) (d : ℚ → ℚ → ℚ → ℚ → ℚ)
    (providerProfiles : List ProviderProfile) (profiles : List Profile) :
    List ProviderSummary :=
  List.insertionSort distLe
    ((candidateRecords request d providerProfiles profiles).filter radiusOk)

/-- SET clause shared by both assignment writes: provider, status
`assigned`, and an explicit `assigned_at` timestamp. -/
def assignSet (providerId : Nat) (now : ℚ) (r : ServiceRequest) : ServiceRequest :=
  { r with
      provider_id := some providerId
      status := RequestStatus.assigned
      assigned_at := some now }

/-- Query for the `provider_categories` rows of a request's category. -/
def requestCategories (db : Database) (categoryId : Nat) : List ProviderCategory :=
  db.provider_categories.filter (fun pc => decide (pc.category_id = categoryId))

/-- Query for the available provider profiles among a category's members. -/
def eligibleProfiles (db : Database) (categoryId : Nat) : List ProviderProfile :=
  db.provider_profiles.filter (fun pp =>
    ((requestCategories db categoryId).map (fun pc => pc.provider_profile_id)).contains pp.id
      && pp.is_available)

/-- Query for the user profiles of the available provider profiles. -/
def fetchedProfiles (db : Database) (categoryId : Nat) : List Profile :=
  db.profiles.filter (fun p =>
    ((eligibleProfiles db categoryId).map (fun pp => pp.user_id)).contains p.id)

/-- Query for the users holding the admin role. -/
def adminUsers (db : Database) : List UserRole :=
  db.user_roles.filter (fun ur => decide (ur.role = AppRole.admin))

/-- Success notification to the resident after an assignment. -/
def assignedResidentNotif (residentId : Nat) (providerName : String)
    (reqId : Nat) : Notification :=
  { user_id := residentId
    title := "Service Request Assigned"
    message := "Your request has been assigned to " ++ providerName
    type := "success"
    related_request_id := some reqId }

/-- Notification to the assigned provider's user, if the provider profile
is found; the source skips the insert when the lookup yields no user. -/
def assignedProviderNotifs (db : Database) (providerId : Nat) (reqId : Nat) :
    List Notification :=
  match (db.provider_profiles.find? (fun pp => decide (pp.id = providerId))).map
      (fun pp => pp.user_id) with
  | some u =>
    [{ user_id := u
       title := "New Job Assignment"
       message := "You have been assigned a new service request"
       type := "info"
       related_request_id := some reqId }]
  | none => []

/-- JSON response of the single-request assignment function. -/
structure AssignResponse where
  status : Nat
  success : Bool
  message : Option String
  error : Option String
  provider : Option ProviderSummary
  requestId : Option Nat
  deriving DecidableEq, Repr

/-- Warning notification sent to one admin when no provider is in range. -/
def adminWarning (requestId : Nat) (adminId : Nat) : Notification :=
  { user_id := adminId
    title := "Assignment Failed"
    message := "No available provider found for request " ++ toString requestId
    type := "warning"
    related_request_id := some requestId }

/-- The single-request assignment edge function (current version, which
relies on the database trigger for status history).  `d` abstracts the
haversine distance on the parsed coordinates, `now` is the wall clock used
for `assigned_at`.  The service-role client has no auth uid. -/
def assignProvider (db : Database) (d : ℚ → ℚ → ℚ → ℚ → ℚ) (requestId : Nat)
    (now : ℚ) : AssignResponse × Database :=
  match db.service_requests.find? (fun r => decide (r.id = requestId)) with
  | none =>
    ({ status := 400, success := false, message := none,
       error := some "Service request not found", provider := none, requestId := none }, db)
  | some request =>
    if requestCategories db request.category_id = [] then
      ({ status := 200, success := false,
         message := some "No providers available for this category",
         error := none, provider := none, requestId := some requestId }, db)
    else
      let providerProfiles := eligibleProfiles db request.category_id
      let profs := fetchedProfiles db request.category_id
      match providersWithDistance request d providerProfiles profs with
      | [] =>
        let adminNotifications :=
          (adminUsers db).map (fun a => adminWarning requestId a.user_id)
        ({ status := 200, success := false,
           message := some "No available providers found in service area",
           error := none, provider := none, requestId := some requestId },
         { db with notifications := db.notifications ++ adminNotifications })
      | assignedProvider :: _ =>
        let db1 := updateServiceRequests db (fun r => decide (r.id = requestId))
          (assignSet assignedProvider.providerId now) none now
        let db2 := { db1 with notifications := db1.notifications ++
            [assignedResidentNotif request.resident_id assignedProvider.providerName
              requestId] }
        let db3 := { db2 with notifications := db2.notifications ++
            assignedProviderNotifs db1 assignedProvider.providerId requestId }
        ({ status := 200, success := true,
           message := some "Provider assigned successfully",
           error := none, provider := some assignedProvider, requestId := some requestId }, db3)

/-- JSON response of the batch assignment function. -/
structure BatchResponse where
  status : Nat
  success : Option Bool
  message : Option String
  error : Option String
  assignedCount : Option Nat
  deriving DecidableEq, Repr

/-- Radius used by the batch function:
`parseFloat(providerProfile.service_area_radius_km?.toString() || '10')`,
defaulting a null column to 10 km. -/
def parseRadius (x : Option ℚ) : ℚ :=
  match x with
  | some r => r
  | none => 10

/-- In-range test of the batch loop with the provider's possibly missing
coordinates: a null coordinate makes the distance NaN, so the comparison
is false. -/
def batchInRange (d : ℚ → ℚ → ℚ → ℚ → ℚ) (plat plng : Option ℚ) (radius : ℚ)
    (request : ServiceRequest) : Bool :=
  match plat, plng with
  | some la, some ln => decide (d la ln request.location_lat request.location_lng ≤ radius)
  | _, _ => false

/-- Notification pair inserted by the batch loop for one assigned request:
one to the resident, one to the provider user. -/
def batchNotifs (userId : Nat) (request : ServiceRequest) : List Notification :=
  [{ user_id := request.resident_id
     title := "Service Provider Assigned"
     message := "A service provider has been assigned to your request."
     type := "request_assigned"
     related_request_id := some request.id },
   { user_id := userId
     title := "New Service Assignment"
     message := "You have been assigned a new service request."
     type := "new_assignment"
     related_request_id := some request.id }]

/-- Body of the batch loop for a single pending request: if in range, run
the conditional update (`id` equals and status still `pending`); a failing
update (`updFails`) is logged and skipped, otherwise the counter is
incremented and the two notifications are inserted. -/
def processRequest (providerProfileId userId : Nat) (d : ℚ → ℚ → ℚ → ℚ → ℚ)
    (plat plng : Option ℚ) (radius : ℚ) (updFails : Nat → Bool) (now : ℚ)
    (acc : Database × Nat) (request : ServiceRequest) : Database × Nat :=
  if batchInRange d plat plng radius request then
    if updFails request.id then acc
    else
      let dbU := updateServiceRequests acc.1
        (fun r => decide (r.id = request.id) && decide (r.status = RequestStatus.pending))
        (assignSet providerProfileId now) none now
      ({ dbU with notifications := dbU.notifications ++ batchNotifs userId request },
       acc.2 + 1)
  else acc

/-- Predicate for the pending requests actually assigned by the batch
loop: in range and with a non-failing update. -/
def batchAssignedPred (d : ℚ → ℚ → ℚ → ℚ → ℚ) (plat plng : Option ℚ) (radius : ℚ)
    (updFails : Nat → Bool) (r : ServiceRequest) : Bool :=
  batchInRange d plat plng radius r && !(updFails r.id)

/-- Query for the provider's category memberships in the batch function. -/
def providerCats (db : Database) (providerProfileId : Nat) : List ProviderCategory :=
  db.provider_categories.filter (fun pc => decide (pc.provider_profile_id = providerProfileId))

/-- Query for the pending, unassigned requests matching a category list. -/
def pendingMatching (db : Database) (categoryIds : List Nat) : List ServiceRequest :=
  db.service_requests.filter (fun r =>
    decide (r.status = RequestStatus.pending) &&
    categoryIds.contains r.category_id && decide (r.provider_id = none))

/-- The batch assignment edge function `assign-pending-requests`: assigns
every matching pending request within range to the provider identified by
`userId`.  `updFails` is the oracle for transport failures of the
conditional update statement. -/
def assignPendingRequests (db : Database) (d : ℚ → ℚ → ℚ → ℚ → ℚ) (userId : Nat)
    (updFails : Nat → Bool) (now : ℚ) : BatchResponse × Database :=
  match db.provider_profiles.find? (fun pp => decide (pp.user_id = userId)) with
  | none =>
    ({ status := 404, success := none, message := none,
       error := some "Provider profile not found", assignedCount := none }, db)
  | some providerProfile =>
    if providerProfile.is_available = false then
      ({ status := 200, success := none, message := some "Provider is not available",
         error := none, assignedCount := none }, db)
    else
      match db.profiles.find? (fun p => decide (p.id = userId)) with
      | none =>
        ({ status := 404, success := none, message := none,
           error := some "Provider location not found", assignedCount := none }, db)
      | some providerProfileData =>
        if providerCats db providerProfile.id = [] then
          ({ status := 400, success := none, message := none,
             error := some "Provider has no service categories", assignedCount := none }, db)
        else
          let categoryIds := (providerCats db providerProfile.id).map (fun pc => pc.category_id)
          let pendingRequests := pendingMatching db categoryIds
          if pendingRequests = [] then
            ({ status := 200, success := none, message := some "No pending requests found",
               error := none, assignedCount := some 0 }, db)
          else
            let serviceRadius := parseRadius providerProfile.service_area_radius_km
            let result := pendingRequests.foldl
              (processRequest providerProfile.id userId d
                providerProfileData.location_lat providerProfileData.location_lng
                serviceRadius updFails now) (db, 0)
            ({ status := 200, success := some true,
               message := some ("Assigned " ++ toString result.2 ++ " pending request(s)"),
               error := none, assignedCount := some result.2 }, result.1)

/-- SET clause of the completion write: status `completed` and an explicit
`completed_at` timestamp. -/
def completeSet (now : ℚ) (r : ServiceRequest) : ServiceRequest :=
  { r with
      status := RequestStatus.completed
      completed_at := some now }

/-- The `handleMarkCompleted` handler of `ProviderJobActions`: fetch the
request for its resident, set status `completed` and `completed_at` keyed
only on the id, then notify the resident.  `uid` is the signed-in user. -/
def handleMarkCompleted (db : Database) (requestId : Nat) (uid : Option Nat)
    (now : ℚ) : Database :=
  match db.service_requests.find? (fun r => decide (r.id = requestId)) with
  | none => db
  | some request =>
    let db1 := updateServiceRequests db (fun r => decide (r.id = requestId))
      (completeSet now) uid now
    { db1 with notifications := db1.notifications ++
        [{ user_id := request.resident_id
           title := "Service Completed"
           message := "Your service request has been marked as completed"
           type := "success"
           related_request_id := some requestId }] }

open Classical in
/-- Two-argument arctangent with the quadrant conventions of
`Math.atan2(y, x)`, over the ideal reals. -/
noncomputable def atan2 (y x : ℝ) : ℝ :=
  if 0 < x then Real.arctan (y / x)
  else if x < 0 ∧ 0 ≤ y then Real.arctan (y / x) + Real.pi
  else if x < 0 ∧ y < 0 then Real.arctan (y / x) - Real.pi
  else if x = 0 ∧ 0 < y then Real.pi / 2
  else if x = 0 ∧ y < 0 then -(Real.pi / 2)
  else 0

/-- The `calculateDistance` function of both edge functions (haversine
with Earth radius 6371 km), embedded over the ideal reals. -/
noncomputable def calculateDistance (lat1 lon1 lat2 lon2 : ℝ) : ℝ :=
  let R : ℝ := 6371
  let dLat := (lat2 - lat1) * (Real.pi / 180)
  let dLon := (lon2 - lon1) * (Real.pi / 180)
  let a := Real.sin (dLat / 2) * Real.sin (dLat / 2) +
    Real.cos (lat1 * (Real.pi / 180)) * Real.cos (lat2 * (Real.pi / 180)) *
    (Real.sin (dLon / 2) * Real.sin (dLon / 2))
  let c := 2 * atan2 (Real.sqrt a) (Real.sqrt (1 - a))
  R * c

/-- Modelled from the spec: great-circle distance in kilometers by the
haversine formula with Earth radius 6371 km, for comparison with the
source's `calculateDistance`. -/
noncomputable def haversineSpecDistance (lat1 lon1 lat2 lon2 : ℝ) : ℝ :=
  let earthRadiusKm : ℝ := 6371
  let dLat := (lat2 - lat1) * (Real.pi / 180)
  let dLon := (lon2 - lon1) * (Real.pi / 180)
  let h := Real.sin (dLat / 2) * Real.sin (dLat / 2) +
    Real.cos (lat1 * (Real.pi / 180)) * Real.cos (lat2 * (Real.pi / 180)) *
    (Real.sin (dLon / 2) * Real.sin (dLon / 2))
  earthRadiusKm * (2 * atan2 (Real.sqrt h) (Real.sqrt (1 - h)))

/-- Half of the latitude difference of the New York / Los Angeles fixture,
in radians (as a positive angle). -/
noncomputable def angA : ℝ := 6.6606 * Real.pi / 360

/-- Half of the longitude difference of the fixture, in radians. -/
noncomputable def angB : ℝ := 44.2377 * Real.pi / 360

/-- New York latitude in radians. -/
noncomputable def angL1 : ℝ := 40.7128 * Real.pi / 180

/-- Los Angeles latitude in radians. -/
noncomputable def angL2 : ℝ := 34.0522 * Real.pi / 180

/-- The haversine intermediate `a` at the fixture coordinates. -/
noncomputable def fixA : ℝ :=
  Real.sin angA * Real.sin angA +
    Real.cos angL1 * Real.cos angL2 * (Real.sin angB * Real.sin angB)

/-- Constant distance oracle: every provider is 3 km away. -/
def exDist3 : ℚ → ℚ → ℚ → ℚ → ℚ := fun _ _ _ _ => 3

/-- Constant distance oracle: every provider is 50 km away. -/
def exDist50 : ℚ → ℚ → ℚ → ℚ → ℚ := fun _ _ _ _ => 50

/-- Distance oracle for the batch scenarios: the distance equals the
request's latitude (third argument of `calculateDistance`). -/
def exDistLat : ℚ → ℚ → ℚ → ℚ → ℚ := fun _ _ la _ => la

/-- Update-failure oracle that never fails. -/
def exNoFails : Nat → Bool := fun _ => false

/-- Update-failure oracle failing exactly for request 12. -/
def exFails12 : Nat → Bool := fun i => decide (i = 12)

/-- A pending request in category 3 at Bangalore coordinates. -/
def exReqPending : ServiceRequest :=
  { id := 1, resident_id := 100, category_id := 3, provider_id := none
    status := RequestStatus.pending, location_lat := 12, location_lng := 77
    assigned_at := none, completed_at := none }

/-- The same request already assigned to provider 50 at time 5. -/
def exReqAssigned : ServiceRequest :=
  { exReqPending with
      provider_id := some 50
      status := RequestStatus.assigned
      assigned_at := some 5 }

/-- An available provider profile with a 10 km radius. -/
def exProvider : ProviderProfile :=
  { id := 7, user_id := 70, is_available := true, service_area_radius_km := some 10 }

/-- The provider's user profile with coordinates. -/
def exProfile70 : Profile :=
  { id := 70, name := "Ravi", location_lat := some 12, location_lng := some 77 }

/-- A user holding the admin role. -/
def exAdminRole : UserRole := { user_id := 90, role := AppRole.admin }

/-- Database with one pending request and one matching provider. -/
def exDbMain : Database :=
  { service_requests := [exReqPending]
    provider_categories := [{ provider_profile_id := 7, category_id := 3 }]
    provider_profiles := [exProvider]
    profiles := [exProfile70]
    user_roles := [exAdminRole]
    notifications := []
    request_status_history := [] }

/-- Database whose only request is already assigned to provider 50. -/
def exDbAssigned : Database := { exDbMain with service_requests := [exReqAssigned] }

/-- Database whose request's category (4) has no registered providers. -/
def exDbNoCat : Database :=
  { exDbMain with service_requests := [{ exReqPending with category_id := 4 }] }

/-- Database for the repeated-completion scenario: request 2 is assigned to
provider 7 and not yet completed. -/
def exDbC5 : Database :=
  { exDbMain with service_requests :=
      [{ id := 2, resident_id := 100, category_id := 3, provider_id := some 7
         status := RequestStatus.assigned, location_lat := 12, location_lng := 77
         assigned_at := some 5, completed_at := none }] }

/-- Pending batch request at latitude 1 (in range, update succeeds). -/
def exBatchReq1 : ServiceRequest :=
  { id := 11, resident_id := 101, category_id := 3, provider_id := none
    status := RequestStatus.pending, location_lat := 1, location_lng := 1
    assigned_at := none, completed_at := none }

/-- Pending batch request at latitude 2 (in range, update fails). -/
def exBatchReq2 : ServiceRequest :=
  { exBatchReq1 with id := 12, resident_id := 102, location_lat := 2, location_lng := 2 }

/-- Pending batch request at latitude 50 (out of range). -/
def exBatchReq3 : ServiceRequest :=
  { exBatchReq1 with id := 13, resident_id := 103, location_lat := 50, location_lng := 50 }

/-- Provider user profile at the origin, for the batch scenarios. -/
def exProfile70Origin : Profile :=
  { id := 70, name := "Ravi", location_lat := some 0, location_lng := some 0 }

/-- Database for the batch scenario: three pending requests in range or
not, one available provider with a 10 km radius. -/
def exDbBatch : Database :=
  { service_requests := [exBatchReq1, exBatchReq2, exBatchReq3]
    provider_categories := [{ provider_profile_id := 7, category_id := 3 }]
    provider_profiles := [exProvider]
    profiles := [exProfile70Origin]
    user_roles := []
    notifications := []
    request_status_history := [] }

/-- Batch database whose provider is unavailable. -/
def exDbBatchUnavail : Database :=
  { exDbBatch with provider_profiles := [{ exProvider with is_available := false }] }

/-- Batch database whose provider has a null service radius, with requests
at latitudes 9 (inside the 10 km default) and 11 (outside). -/
def exDbBatchNullRad : Database :=
  { exDbBatch with
      provider_profiles := [{ exProvider with service_area_radius_km := none }]
      service_requests :=
        [{ exBatchReq1 with id := 14, resident_id := 104, location_lat := 9, location_lng := 9 },
         { exBatchReq1 with id := 15, resident_id := 105, location_lat := 11, location_lng := 11 }] }

/-! Helper lemmas about the update machinery. -/

theorem applyUpdateRow_neg {cond : ServiceRequest → Bool} {set : ServiceRequest → ServiceRequest}
    {now : ℚ} {row : ServiceRequest} (h : cond row = false) :
    applyUpdateRow cond set now row = row := by
  simp [applyUpdateRow, h]

theorem update_request_timestamps_of_assignSet (pid : Nat) (now : ℚ) (row : ServiceRequest) :
    update_request_timestamps now (assignSet pid now row) = assignSet pid now row := by
  simp [update_request_timestamps, assignSet]

theorem applyUpdateRow_assignSet {cond : ServiceRequest → Bool} {pid : Nat} {now : ℚ}
    {row : ServiceRequest} (h : cond row = true) :
    applyUpdateRow cond (assignSet pid now) now row = assignSet pid now row := by
  simp [applyUpdateRow, h, update_request_timestamps_of_assignSet]

theorem update_request_timestamps_of_completeSet (now : ℚ) (row : ServiceRequest) :
    update_request_timestamps now (completeSet now row) = completeSet now row := by
  simp [update_request_timestamps, completeSet]

theorem applyUpdateRow_completeSet {cond : ServiceRequest → Bool} {now : ℚ}
    {row : ServiceRequest} (h : cond row = true) :
    applyUpdateRow cond (completeSet now) now row = completeSet now row := by
  simp [applyUpdateRow, h, update_request_timestamps_of_completeSet]

theorem updateServiceRequests_rows (db : Database) (cond : ServiceRequest → Bool)
    (set : ServiceRequest → ServiceRequest) (uid : Option Nat) (now : ℚ) :
    (updateServiceRequests db cond set uid now).service_requests =
      db.service_requests.map (applyUpdateRow cond set now) := rfl

theorem updateServiceRequests_history (db : Database) (cond : ServiceRequest → Bool)
    (set : ServiceRequest → ServiceRequest) (uid : Option Nat) (now : ℚ) :
    (updateServiceRequests db cond set uid now).request_status_history =
      db.request_status_history ++ historyDelta db.service_requests cond set uid now := rfl

theorem updateServiceRequests_notifications (db : Database) (cond : ServiceRequest → Bool)
    (set : ServiceRequest → ServiceRequest) (uid : Option Nat) (now : ℚ) :
    (updateServiceRequests db cond set uid now).notifications = db.notifications := rfl

/-! Branch lemmas for the single-request assignment function. -/

theorem assignProvider_notFound {db : Database} {d : ℚ → ℚ → ℚ → ℚ → ℚ} {reqId : Nat}
    {now : ℚ} (h : db.service_requests.find? (fun r => decide (r.id = reqId)) = none) :
    assignProvider db d reqId now =
      ({ status := 400, success := false, message := none,
         error := some "Service request not found", provider := none, requestId := none }, db) := by
  unfold assignProvider
  rw [h]

theorem assignProvider_noCategories {db : Database} {d : ℚ → ℚ → ℚ → ℚ → ℚ} {reqId : Nat}
    {now : ℚ} {r : ServiceRequest}
    (hfind : db.service_requests.find? (fun x => decide (x.id = reqId)) = some r)
    (hcat : requestCategories db r.category_id = []) :
    assignProvider db d reqId now =
      ({ status := 200, success := false,
         message := some "No providers available for this category",
         error := none, provider := none, requestId := some reqId }, db) := by
  unfold assignProvider
  rw [hfind]
  simp [hcat]

theorem assignProvider_noneInRange {db : Database} {d : ℚ → ℚ → ℚ → ℚ → ℚ} {reqId : Nat}
    {now : ℚ} {r : ServiceRequest}
    (hfind : db.service_requests.find? (fun x => decide (x.id = reqId)) = some r)
    (hcat : requestCategories db r.category_id ≠ [])
    (hpwd : providersWithDistance r d (eligibleProfiles db r.category_id)
      (fetchedProfiles db r.category_id) = []) :
    assignProvider db d reqId now =
      ({ status := 200, success := false,
         message := some "No available providers found in service area",
         error := none, provider := none, requestId := some reqId },
       { db with notifications := db.notifications ++
           (adminUsers db).map (fun a => adminWarning reqId a.user_id) }) := by
  unfold assignProvider
  rw [hfind]
  simp only [if_neg hcat, hpwd]

theorem assignProvider_success {db : Database} {d : ℚ → ℚ → ℚ → ℚ → ℚ} {reqId : Nat}
    {now : ℚ} {r : ServiceRequest} {p : ProviderSummary} {rest : List ProviderSummary}
    (hfind : db.service_requests.find? (fun x => decide (x.id = reqId)) = some r)
    (hcat : requestCategories db r.category_id ≠ [])
    (hpwd : providersWithDistance r d (eligibleProfiles db r.category_id)
      (fetchedProfiles db r.category_id) = p :: rest) :
    assignProvider db d reqId now =
      ({ status := 200, success := true,
         message := some "Provider assigned successfully",
         error := none, provider := some p, requestId := some reqId },
       { updateServiceRequests db (fun x => decide (x.id = reqId)) (assignSet p.providerId now)
           none now with
         notifications := db.notifications ++
           [assignedResidentNotif r.resident_id p.providerName reqId] ++
           assignedProviderNotifs db p.providerId reqId }) := by
  unfold assignProvider
  rw [hfind]
  simp only [if_neg hcat, hpwd]
  rfl

/-! Branch lemmas for the batch assignment function. -/

theorem assignPendingRequests_unavailable {db : Database} {d : ℚ → ℚ → ℚ → ℚ → ℚ}
    {userId : Nat} {f : Nat → Bool} {now : ℚ} {pp : ProviderProfile}
    (hfind : db.provider_profiles.find? (fun x => decide (x.user_id = userId)) = some pp)
    (havail : pp.is_available = false) :
    assignPendingRequests db d userId f now =
      ({ status := 200, success := none, message := some "Provider is not available",
         error := none, assignedCount := none }, db) := by
  unfold assignPendingRequests
  rw [hfind]
  simp [havail]

theorem processRequest_skip {pid uid : Nat} {d : ℚ → ℚ → ℚ → ℚ → ℚ}
    {plat plng : Option ℚ} {radius : ℚ} {f : Nat → Bool} {now : ℚ}
    {acc : Database × Nat} {q : ServiceRequest}
    (h : batchAssignedPred d plat plng radius f q = false) :
    processRequest pid uid d plat plng radius f now acc q = acc := by
  unfold processRequest
  unfold batchAssignedPred at h
  by_cases hin : batchInRange d plat plng radius q
  · rw [hin] at h
    simp only [Bool.true_and] at h
    have hf : f q.id = true := by
      cases hq : f q.id
      · rw [hq] at h
        simp at h
      · rfl
    simp [hin, hf]
  · simp [hin]

theorem processRequest_assign {pid uid : Nat} {d : ℚ → ℚ → ℚ → ℚ → ℚ}
    {plat plng : Option ℚ} {radius : ℚ} {f : Nat → Bool} {now : ℚ}
    {db0 : Database} {n : Nat} {q : ServiceRequest}
    (h : batchAssignedPred d plat plng radius f q = true) :
    processRequest pid uid d plat plng radius f now (db0, n) q =
      ({ updateServiceRequests db0
           (fun r => decide (r.id = q.id) && decide (r.status = RequestStatus.pending))
           (assignSet pid now) none now with
         notifications := db0.notifications ++ batchNotifs uid q }, n + 1) := by
  unfold batchAssignedPred at h
  rw [Bool.and_eq_true] at h
  have hin := h.1
  have hf : f q.id = false := by simpa using h.2
  unfold processRequest
  simp [hin, hf]
  rfl

theorem foldl_processRequest_spec (pid uid : Nat) (d : ℚ → ℚ → ℚ → ℚ → ℚ)
    (plat plng : Option ℚ) (radius : ℚ) (f : Nat → Bool) (now : ℚ)
    (l : List ServiceRequest) : ∀ (db0 : Database) (n : Nat),
    ((l.foldl (processRequest pid uid d plat plng radius f now) (db0, n)).2
      = n + (l.filter (batchAssignedPred d plat plng radius f)).length) ∧
    ((l.foldl (processRequest pid uid d plat plng radius f now) (db0, n)).1.notifications
      = db0.notifications ++
        (l.filter (batchAssignedPred d plat plng radius f)).flatMap (batchNotifs uid)) := by
  induction l with
  | nil => intro db0 n; simp
  | cons q t ih =>
    intro db0 n
    by_cases hq : batchAssignedPred d plat plng radius f q = true
    · rw [List.foldl_cons, processRequest_assign hq]
      constructor
      · rw [(ih _ _).1, List.filter_cons_of_pos hq]
        simp [Nat.add_assoc, Nat.add_comm 1]
      · rw [(ih _ _).2, List.filter_cons_of_pos hq]
        simp [List.append_assoc]
    · rw [List.foldl_cons,
        processRequest_skip (by simpa using hq),
        List.filter_cons_of_neg (by simpa using hq)]
      exact ih db0 n

theorem assignPendingRequests_run {db : Database} {d : ℚ → ℚ → ℚ → ℚ → ℚ}
    {userId : Nat} {f : Nat → Bool} {now : ℚ} {pp : ProviderProfile} {pd : Profile}
    (hfind : db.provider_profiles.find? (fun x => decide (x.user_id = userId)) = some pp)
    (havail : pp.is_available = true)
    (hprof : db.profiles.find? (fun p => decide (p.id = userId)) = some pd)
    (hcats : providerCats db pp.id ≠ [])
    (hpend : pendingMatching db ((providerCats db pp.id).map (fun pc => pc.category_id)) ≠ []) :
    assignPendingRequests db d userId f now =
      (let result := (pendingMatching db
          ((providerCats db pp.id).map (fun pc => pc.category_id))).foldl
          (processRequest pp.id userId d pd.location_lat pd.location_lng
            (parseRadius pp.service_area_radius_km) f now) (db, 0)
       ({ status := 200, success := some true,
          message := some ("Assigned " ++ toString result.2 ++ " pending request(s)"),
          error := none, assignedCount := some result.2 }, result.1)) := by
  unfold assignPendingRequests
  rw [hfind]
  simp only [havail, Bool.true_eq_false, if_false, hprof, if_neg hcats, if_neg hpend]

theorem foldl_processRequest_preserves (pid uid : Nat) (d : ℚ → ℚ → ℚ → ℚ → ℚ)
    (plat plng : Option ℚ) (radius : ℚ) (f : Nat → Bool) (now : ℚ)
    (l : List ServiceRequest) : ∀ (acc : Database × Nat) (i : Nat) (r : ServiceRequest),
    acc.1.service_requests[i]? = some r →
    (∀ q ∈ l, (decide (r.id = q.id) && decide (r.status = RequestStatus.pending)) = false) →
    ((l.foldl (processRequest pid uid d plat plng radius f now) acc).1.service_requests[i]?
      = some r) := by
  induction l with
  | nil => intro acc i r hi _; simpa using hi
  | cons q t ih =>
    intro acc i r hi hall
    obtain ⟨a, n⟩ := acc
    rw [List.foldl_cons]
    by_cases hq : batchAssignedPred d plat plng radius f q = true
    · rw [processRequest_assign hq]
      refine ih _ i r ?_ (fun x hx => hall x (List.mem_cons_of_mem q hx))
      have hcond : (decide (r.id = q.id) && decide (r.status = RequestStatus.pending))
          = false := hall q (List.mem_cons_self q t)
      simp only [updateServiceRequests_rows]
      rw [List.getElem?_map, hi]
      simp [applyUpdateRow, hcond]
    · rw [processRequest_skip (by simpa using hq)]
      exact ih _ i r hi (fun x hx => hall x (List.mem_cons_of_mem q hx))

/-! Helper lemmas about the history delta of one UPDATE statement. -/

theorem historyDelta_nil (cond : ServiceRequest → Bool) (set : ServiceRequest → ServiceRequest)
    (uid : Option Nat) (now : ℚ) : historyDelta [] cond set uid now = [] := rfl

theorem historyDelta_cons (a : ServiceRequest) (t : List ServiceRequest)
    (cond : ServiceRequest → Bool) (set : ServiceRequest → ServiceRequest)
    (uid : Option Nat) (now : ℚ) :
    historyDelta (a :: t) cond set uid now =
      (if cond a ∧ a.status ≠ (applyUpdateRow cond set now a).status then
        [historyEntry uid (applyUpdateRow cond set now a)] else []) ++
      historyDelta t cond set uid now := by
  simp only [historyDelta, List.filterMap_cons]
  by_cases h : cond a = true ∧ a.status ≠ (applyUpdateRow cond set now a).status
  · rw [if_pos h, if_pos h]
    simp
  · rw [if_neg h, if_neg h]
    simp

theorem historyDelta_eq_nil {rows : List ServiceRequest} {cond : ServiceRequest → Bool}
    {set : ServiceRequest → ServiceRequest} {uid : Option Nat} {now : ℚ}
    (h : ∀ row ∈ rows, cond row = false) : historyDelta rows cond set uid now = [] := by
  induction rows with
  | nil => rfl
  | cons a t ih =>
    rw [historyDelta_cons, if_neg, ih (fun x hx => h x (List.mem_cons_of_mem a hx))]
    · simp
    · intro hc
      rw [h a (List.mem_cons_self a t)] at hc
      simpa using hc.1

theorem historyDelta_single {rows : List ServiceRequest} {reqId : Nat}
    {set : ServiceRequest → ServiceRequest} {uid : Option Nat} {now : ℚ} {r : ServiceRequest}
    (hfind : rows.find? (fun x => decide (x.id = reqId)) = some r)
    (hnd : (rows.map (fun x => x.id)).Nodup)
    (hch : (applyUpdateRow (fun x => decide (x.id = reqId)) set now r).status ≠ r.status) :
    historyDelta rows (fun x => decide (x.id = reqId)) set uid now =
      [historyEntry uid (applyUpdateRow (fun x => decide (x.id = reqId)) set now r)] := by
  induction rows with
  | nil => simp at hfind
  | cons a t ih =>
    rw [List.map_cons, List.nodup_cons] at hnd
    by_cases ha : a.id = reqId
    · have har : a = r := by
        rw [List.find?_cons_of_pos t (by simpa using ha)] at hfind
        exact Option.some.inj hfind
      subst har
      have htail : ∀ x ∈ t, (fun x => decide (x.id = reqId)) x = false := by
        intro x hx
        simp only [decide_eq_false_iff_not]
        intro hxid
        exact hnd.1 (List.mem_map.mpr ⟨x, hx, by rw [hxid, ha]⟩)
      rw [historyDelta_cons, historyDelta_eq_nil htail, if_pos ⟨by simpa using ha, Ne.symm hch⟩]
      simp
    · rw [historyDelta_cons, if_neg (fun hc => ha (by simpa using hc.1))]
      rw [List.find?_cons_of_neg t (by simpa using ha)] at hfind
      simpa using ih hfind hnd.2

/-! Claim C7: missing service request. -/

/-- C7: when the referenced service request does not exist, the
single-request assignment returns the hard-failure shape
`{ success: false, error: "Service request not found" }` with HTTP 400,
distinct from the success and no-match shapes, and performs no writes:
the database is returned unchanged. -/
theorem C7_missing_request_hard_failure (db : Database) (d : ℚ → ℚ → ℚ → ℚ → ℚ)
    (reqId : Nat) (now : ℚ)
    (h : db.service_requests.find? (fun r => decide (r.id = reqId)) = none) :
    (assignProvider db d reqId now).1 =
      { status := 400, success := false, message := none,
        error := some "Service request not found", provider := none, requestId := none } ∧
    (assignProvider db d reqId now).2 = db := by
  rw [assignProvider_notFound h]
  exact ⟨rfl, rfl⟩

/-- Witness for C7 at a concrete database and request id. -/
theorem C7_missing_request_hard_failure_witness :
    (assignProvider exDbMain exDist3 99 0).1 =
      { status := 400, success := false, message := none,
        error := some "Service request not found", provider := none, requestId := none } ∧
    (assignProvider exDbMain exDist3 99 0).2 = exDbMain :=
  C7_missing_request_hard_failure exDbMain exDist3 99 0 (by decide)

/-! Claim C4: the two distinct no-match outcomes. -/

/-- C4: with no category membership rows the single-request assignment
returns success false, message "No providers available for this category",
HTTP 200, and writes nothing; with members but no eligible candidate it
returns the distinct "No available providers found in service area" result,
HTTP 200, and inserts one warning notification naming the request for
every user holding the admin role. -/
theorem C4_no_match_outcomes (db : Database) (d : ℚ → ℚ → ℚ → ℚ → ℚ)
    (reqId : Nat) (now : ℚ) (r : ServiceRequest)
    (hfind : db.service_requests.find? (fun x => decide (x.id = reqId)) = some r) :
    (requestCategories db r.category_id = [] →
      assignProvider db d reqId now =
        ({ status := 200, success := false,
           message := some "No providers available for this category",
           error := none, provider := none, requestId := some reqId }, db)) ∧
    (requestCategories db r.category_id ≠ [] →
      providersWithDistance r d (eligibleProfiles db r.category_id)
        (fetchedProfiles db r.category_id) = [] →
      assignProvider db d reqId now =
        ({ status := 200, success := false,
           message := some "No available providers found in service area",
           error := none, provider := none, requestId := some reqId },
         { db with notifications := db.notifications ++
             (adminUsers db).map (fun a => adminWarning reqId a.user_id) })) := by
  constructor
  · intro hcat
    exact assignProvider_noCategories hfind hcat
  · intro hcat hpwd
    exact assignProvider_noneInRange hfind hcat hpwd

/-- Witness for C4: category 4 has no members in `exDbNoCat`; in `exDbMain`
every provider is 50 km away, beyond the 10 km radius, and the one admin
(user 90) receives the warning. -/
theorem C4_no_match_outcomes_witness :
    (assignProvider exDbNoCat exDist3 1 0 =
      ({ status := 200, success := false,
         message := some "No providers available for this category",
         error := none, provider := none, requestId := some 1 }, exDbNoCat)) ∧
    (assignProvider exDbMain exDist50 1 0 =
      ({ status := 200, success := false,
         message := some "No available providers found in service area",
         error := none, provider := none, requestId := some 1 },
       { exDbMain with notifications := exDbMain.notifications ++
           (adminUsers exDbMain).map (fun a => adminWarning 1 a.user_id) })) :=
  ⟨(C4_no_match_outcomes exDbNoCat exDist3 1 0
      { exReqPending with category_id := 4 } (by decide)).1 (by decide),
   (C4_no_match_outcomes exDbMain exDist50 1 0 exReqPending (by decide)).2
      (by decide) (by decide)⟩

/-! Claim C9: unavailable provider in the batch function. -/

/-- C9: when the provider profile exists but `is_available` is false, the
batch assignment returns HTTP 200 with message "Provider is not available"
and performs no writes: the database is returned unchanged. -/
theorem C9_unavailable_provider_no_writes (db : Database) (d : ℚ → ℚ → ℚ → ℚ → ℚ)
    (userId : Nat) (f : Nat → Bool) (now : ℚ) (pp : ProviderProfile)
    (hfind : db.provider_profiles.find? (fun x => decide (x.user_id = userId)) = some pp)
    (havail : pp.is_available = false) :
    (assignPendingRequests db d userId f now).1 =
      { status := 200, success := none, message := some "Provider is not available",
        error := none, assignedCount := none } ∧
    (assignPendingRequests db d userId f now).2 = db := by
  rw [assignPendingRequests_unavailable hfind havail]
  exact ⟨rfl, rfl⟩

/-- Witness for C9 at a concrete database whose provider is unavailable. -/
theorem C9_unavailable_provider_no_writes_witness :
    (assignPendingRequests exDbBatchUnavail exDistLat 70 exNoFails 0).1 =
      { status := 200, success := none, message := some "Provider is not available",
        error := none, assignedCount := none } ∧
    (assignPendingRequests exDbBatchUnavail exDistLat 70 exNoFails 0).2 = exDbBatchUnavail :=
  C9_unavailable_provider_no_writes exDbBatchUnavail exDistLat 70 exNoFails 0
    { exProvider with is_available := false } (by decide) (by decide)

/-! Claim C2: exactly one history row per status transition. -/

/-- C2: every status transition appends exactly one RequestStatusHistory
row: an insert appends exactly one row carrying the inserted status; an
UPDATE statement keyed on a unique request id whose status actually
changes appends exactly one row; and in particular the assignment engine's
transition of a pending request to `assigned` appends exactly the one row
recording status `assigned` with the resident as fallback changer. -/
theorem C2_exactly_one_history_row :
    (∀ (db : Database) (row : ServiceRequest) (uid : Option Nat),
      (insertServiceRequest db row uid).request_status_history =
        db.request_status_history ++ [historyEntry uid row]) ∧
    (∀ (db : Database) (reqId : Nat) (set : ServiceRequest → ServiceRequest)
        (uid : Option Nat) (now : ℚ) (r : ServiceRequest),
      db.service_requests.find? (fun x => decide (x.id = reqId)) = some r →
      (db.service_requests.map (fun x => x.id)).Nodup →
      (applyUpdateRow (fun x => decide (x.id = reqId)) set now r).status ≠ r.status →
      (updateServiceRequests db (fun x => decide (x.id = reqId)) set uid now).request_status_history
        = db.request_status_history ++
            [historyEntry uid (applyUpdateRow (fun x => decide (x.id = reqId)) set now r)]) ∧
    (∀ (db : Database) (d : ℚ → ℚ → ℚ → ℚ → ℚ) (reqId : Nat) (now : ℚ)
        (r : ServiceRequest) (p : ProviderSummary) (rest : List ProviderSummary),
      db.service_requests.find? (fun x => decide (x.id = reqId)) = some r →
      (db.service_requests.map (fun x => x.id)).Nodup →
      r.status = RequestStatus.pending →
      requestCategories db r.category_id ≠ [] →
      providersWithDistance r d (eligibleProfiles db r.category_id)
        (fetchedProfiles db r.category_id) = p :: rest →
      (assignProvider db d reqId now).2.request_status_history =
        db.request_status_history ++
          [{ request_id := r.id, status := RequestStatus.assigned,
             changed_by := some r.resident_id, notes := none }]) := by
  refine ⟨fun db row uid => rfl, ?_, ?_⟩
  · intro db reqId set uid now r hfind hnd hch
    rw [updateServiceRequests_history, historyDelta_single hfind hnd hch]
  · intro db d reqId now r p rest hfind hnd hpend hcat hpwd
    have hcond := List.find?_some hfind
    have happ : applyUpdateRow (fun x => decide (x.id = reqId)) (assignSet p.providerId now) now r
        = assignSet p.providerId now r :=
      @applyUpdateRow_assignSet (fun x => decide (x.id = reqId)) p.providerId now r hcond
    have hch : (applyUpdateRow (fun x => decide (x.id = reqId))
        (assignSet p.providerId now) now r).status ≠ r.status := by
      rw [happ, hpend]
      simp [assignSet]
    rw [assignProvider_success hfind hcat hpwd]
    show (updateServiceRequests db (fun x => decide (x.id = reqId))
        (assignSet p.providerId now) none now).request_status_history = _
    rw [updateServiceRequests_history, historyDelta_single hfind hnd hch, happ]
    rfl

/-- Witness for C2: inserting the pending request appends one `pending`
row, and assigning it through the engine appends one `assigned` row. -/
theorem C2_exactly_one_history_row_witness :
    ((insertServiceRequest exDbMain exReqPending none).request_status_history =
      exDbMain.request_status_history ++ [historyEntry none exReqPending]) ∧
    ((assignProvider exDbMain exDist3 1 9).2.request_status_history =
      exDbMain.request_status_history ++
        [{ request_id := 1, status := RequestStatus.assigned,
           changed_by := some 100, notes := none }]) :=
  ⟨C2_exactly_one_history_row.1 exDbMain exReqPending none,
   C2_exactly_one_history_row.2.2 exDbMain exDist3 1 9 exReqPending
     { providerId := 7, providerName := "Ravi", distance := 3, serviceRadius := some 10 } []
     (by decide) (by decide) (by decide) (by decide) (by decide)⟩

/-! Helper lemmas for the batch no-op guarantees. -/

theorem pendingMatching_mem {db : Database} {categoryIds : List Nat} {q : ServiceRequest}
    (h : q ∈ pendingMatching db categoryIds) :
    q ∈ db.service_requests ∧ q.status = RequestStatus.pending ∧ q.provider_id = none := by
  unfold pendingMatching at h
  have h2 := List.mem_filter.mp h
  refine ⟨h2.1, ?_, ?_⟩
  · have := h2.2
    rw [Bool.and_eq_true, Bool.and_eq_true] at this
    simpa using this.1.1
  · have := h2.2
    rw [Bool.and_eq_true] at this
    simpa using this.2

theorem assignPendingRequests_preserves_row (db : Database) (d : ℚ → ℚ → ℚ → ℚ → ℚ)
    (userId : Nat) (f : Nat → Bool) (now : ℚ) (i : Nat) (r : ServiceRequest)
    (hi : db.service_requests[i]? = some r)
    (hall : ∀ q ∈ db.service_requests, q.status = RequestStatus.pending →
      q.provider_id = none →
      (decide (r.id = q.id) && decide (r.status = RequestStatus.pending)) = false) :
    (assignPendingRequests db d userId f now).2.service_requests[i]? = some r := by
  unfold assignPendingRequests
  cases hfind : db.provider_profiles.find? (fun x => decide (x.user_id = userId)) with
  | none => exact hi
  | some pp =>
    dsimp only
    by_cases havail : pp.is_available = false
    · rw [if_pos havail]
      exact hi
    · rw [if_neg havail]
      cases hprof : db.profiles.find? (fun p => decide (p.id = userId)) with
      | none => exact hi
      | some pd =>
        dsimp only
        by_cases hcats : providerCats db pp.id = []
        · rw [if_pos hcats]
          exact hi
        · rw [if_neg hcats]
          by_cases hpend : pendingMatching db
              ((providerCats db pp.id).map (fun pc => pc.category_id)) = []
          · rw [if_pos hpend]
            exact hi
          · rw [if_neg hpend]
            refine foldl_processRequest_preserves pp.id userId d pd.location_lat pd.location_lng
              (parseRadius pp.service_area_radius_km) f now _ (db, 0) i r hi ?_
            intro q hq
            have hm := pendingMatching_mem hq
            exact hall q hm.1 hm.2.1 hm.2.2

/-! Claim C1: the conditional-update guard. -/

/-- Counterexample to C1: in `exDbAssigned` request 1 is already assigned
to provider 50 at time 5, yet a second single-request invocation reports
success and overwrites `provider_id` to 7 and `assigned_at` to 9 — the
update is keyed only on the id, so it is neither a zero-row no-op nor a
RaceLost outcome. -/
theorem C1_counterexample :
    (assignProvider exDbAssigned exDist3 1 9).1.success = true ∧
    ((assignProvider exDbAssigned exDist3 1 9).2.service_requests.map
      (fun x => (x.provider_id, x.assigned_at))) = [(some 7, some 9)] ∧
    (exDbAssigned.service_requests.map (fun x => (x.provider_id, x.assigned_at))) =
      [(some 50, some 5)] := by
  refine ⟨rfl, rfl, rfl⟩

/-- C1 (amended): only the batch update carries a write-time guard, and
only on status: a batch run leaves every non-pending row unchanged, and —
with unique request ids — every row with a non-null provider unchanged;
the single-request update, by contrast, is keyed on the id alone, so on
any found request with a nonempty candidate list it reports success and
rewrites every row with that id to the new provider, status `assigned`,
and a fresh `assigned_at`, even if the request was already assigned. -/
theorem C1_amended_conditional_update :
    (∀ (db : Database) (d : ℚ → ℚ → ℚ → ℚ → ℚ) (userId : Nat) (f : Nat → Bool) (now : ℚ)
        (i : Nat) (r : ServiceRequest),
      db.service_requests[i]? = some r → r.status ≠ RequestStatus.pending →
      (assignPendingRequests db d userId f now).2.service_requests[i]? = some r) ∧
    (∀ (db : Database) (d : ℚ → ℚ → ℚ → ℚ → ℚ) (userId : Nat) (f : Nat → Bool) (now : ℚ)
        (i : Nat) (r : ServiceRequest),
      (db.service_requests.map (fun x => x.id)).Nodup →
      db.service_requests[i]? = some r → r.provider_id ≠ none →
      (assignPendingRequests db d userId f now).2.service_requests[i]? = some r) ∧
    (∀ (db : Database) (d : ℚ → ℚ → ℚ → ℚ → ℚ) (reqId : Nat) (now : ℚ)
        (r : ServiceRequest) (p : ProviderSummary) (rest : List ProviderSummary),
      db.service_requests.find? (fun x => decide (x.id = reqId)) = some r →
      requestCategories db r.category_id ≠ [] →
      providersWithDistance r d (eligibleProfiles db r.category_id)
        (fetchedProfiles db r.category_id) = p :: rest →
      (assignProvider db d reqId now).1.success = true ∧
      (assignProvider db d reqId now).2.service_requests =
        db.service_requests.map
          (applyUpdateRow (fun x => decide (x.id = reqId)) (assignSet p.providerId now) now)) := by
  refine ⟨?_, ?_, ?_⟩
  · intro db d userId f now i r hi hstat
    refine assignPendingRequests_preserves_row db d userId f now i r hi ?_
    intro q _ _ _
    simp [hstat]
  · intro db d userId f now i r hnd hi hprov
    refine assignPendingRequests_preserves_row db d userId f now i r hi ?_
    intro q hq _ hqnone
    have hr : r ∈ db.service_requests := List.getElem?_mem hi
    simp only [Bool.and_eq_false_iff, decide_eq_false_iff_not]
    left
    intro hid
    exact hprov (List.inj_on_of_nodup_map hnd hr hq hid ▸ hqnone)
  · intro db d reqId now r p rest hfind hcat hpwd
    rw [assignProvider_success hfind hcat hpwd]
    exact ⟨rfl, rfl⟩

/-- Witness for the amended C1: a batch run over a database whose only
request is already assigned leaves it untouched; a batch run over a
database whose request has a provider recorded leaves it untouched; and
the single-request engine on the already-assigned request 1 succeeds and
rewrites it via the unguarded id-keyed update. -/
theorem C1_amended_conditional_update_witness :
    ((assignPendingRequests exDbAssigned exDistLat 70 exNoFails 0).2.service_requests[0]? =
      some exReqAssigned) ∧
    ((assignPendingRequests exDbC5 exDistLat 70 exNoFails 0).2.service_requests[0]? =
      some { id := 2, resident_id := 100, category_id := 3, provider_id := some 7,
             status := RequestStatus.assigned, location_lat := 12, location_lng := 77,
             assigned_at := some 5, completed_at := none }) ∧
    ((assignProvider exDbAssigned exDist3 1 9).1.success = true ∧
     (assignProvider exDbAssigned exDist3 1 9).2.service_requests =
       exDbAssigned.service_requests.map
         (applyUpdateRow (fun x => decide (x.id = 1)) (assignSet 7 9) 9)) :=
  ⟨C1_amended_conditional_update.1 exDbAssigned exDistLat 70 exNoFails 0 0 exReqAssigned
      (by rfl) (by decide),
   C1_amended_conditional_update.2.1 exDbC5 exDistLat 70 exNoFails 0 0 _
      (by decide) (by rfl) (by decide),
   C1_amended_conditional_update.2.2 exDbAssigned exDist3 1 9 exReqAssigned
      { providerId := 7, providerName := "Ravi", distance := 3, serviceRadius := some 10 } []
      (by decide) (by decide) (by decide)⟩

/-! Claim C5: assigned_at / completed_at set exactly once. -/

/-- Counterexample to C5: request 2 of `exDbC5` is completed once at time
10 and again at time 20; the second completion write, keyed only on the
id and supplying `completed_at` explicitly, overwrites the timestamp from
`some 10` to `some 20`. -/
theorem C5_counterexample :
    ((handleMarkCompleted exDbC5 2 (some 70) 10).service_requests.map
      (fun x => x.completed_at)) = [some 10] ∧
    (ServiceRequest.completed_at <$>
      (handleMarkCompleted (handleMarkCompleted exDbC5 2 (some 70) 10) 2
        (some 70) 20).service_requests) = [some 20] := by
  refine ⟨rfl, rfl⟩

/-- C5 (amended): the BEFORE UPDATE trigger alone never changes a non-null
`assigned_at` or `completed_at`, so updates that do not supply these
columns set each timestamp at most once; but the completion write maps
every row with the request id through a SET clause supplying
`completed_at := now`, and the assignment and completion SET clauses force
`assigned_at`/`completed_at` to the supplied wall-clock value on every
matched row, so repeating either write overwrites the timestamp. -/
theorem C5_amended_timestamps :
    (∀ (now : ℚ) (row : ServiceRequest), row.assigned_at ≠ none →
      (update_request_timestamps now row).assigned_at = row.assigned_at) ∧
    (∀ (now : ℚ) (row : ServiceRequest), row.completed_at ≠ none →
      (update_request_timestamps now row).completed_at = row.completed_at) ∧
    (∀ (db : Database) (reqId : Nat) (uid : Option Nat) (now : ℚ) (r : ServiceRequest),
      db.service_requests.find? (fun x => decide (x.id = reqId)) = some r →
      (handleMarkCompleted db reqId uid now).service_requests =
        db.service_requests.map
          (applyUpdateRow (fun x => decide (x.id = reqId)) (completeSet now) now)) ∧
    (∀ (cond : ServiceRequest → Bool) (pid : Nat) (now : ℚ) (row : ServiceRequest),
      cond row = true →
      (applyUpdateRow cond (completeSet now) now row).completed_at = some now ∧
      (applyUpdateRow cond (assignSet pid now) now row).assigned_at = some now) := by
  refine ⟨?_, ?_, ?_, ?_⟩
  · intro now row h
    unfold update_request_timestamps
    split_ifs with h1 h2
    · exact absurd h1.2 h
    · rfl
    · rfl
  · intro now row h
    unfold update_request_timestamps
    split_ifs with h1 h2
    · rfl
    · exact absurd h2.2 h
    · rfl
  · intro db reqId uid now r hfind
    unfold handleMarkCompleted
    rw [hfind]
    rfl
  · intro cond pid now row h
    constructor
    · rw [applyUpdateRow_completeSet h]
      simp [completeSet]
    · rw [applyUpdateRow_assignSet h]
      simp [assignSet]

/-- Witness for the amended C5: the trigger preserves the stored
timestamps of the assigned request, and the concrete completion of
request 2 at time 10 maps its row through the completion SET clause. -/
theorem C5_amended_timestamps_witness :
    ((update_request_timestamps 99 exReqAssigned).assigned_at = exReqAssigned.assigned_at) ∧
    ((update_request_timestamps 99 { exReqAssigned with completed_at := some 7 }).completed_at
      = ({ exReqAssigned with completed_at := some 7 } : ServiceRequest).completed_at) ∧
    ((handleMarkCompleted exDbC5 2 (some 70) 10).service_requests =
      exDbC5.service_requests.map
        (applyUpdateRow (fun x => decide (x.id = 2)) (completeSet 10) 10)) ∧
    ((applyUpdateRow (fun x => decide (x.id = 1)) (completeSet 4) 4 exReqPending).completed_at
        = some 4 ∧
     (applyUpdateRow (fun x => decide (x.id = 1)) (assignSet 7 4) 4 exReqPending).assigned_at
        = some 4) :=
  ⟨C5_amended_timestamps.1 99 exReqAssigned (by decide),
   C5_amended_timestamps.2.1 99 { exReqAssigned with completed_at := some 7 } (by decide),
   C5_amended_timestamps.2.2.1 exDbC5 2 (some 70) 10
     { id := 2, resident_id := 100, category_id := 3, provider_id := some 7,
       status := RequestStatus.assigned, location_lat := 12, location_lng := 77,
       assigned_at := some 5, completed_at := none } (by decide),
   C5_amended_timestamps.2.2.2 (fun x => decide (x.id = 1)) 7 4 exReqPending (by decide)⟩

/-! Claim C3: eligibility, ranking, and the committed provider. -/

/-- C3: the ranking step retains exactly the candidate records passing the
inclusive radius test `distance <= serviceRadius`, every retained record
satisfies that bound, the output is sorted non-decreasing by distance, and
on the success path the assignment commits the first element of that
ordering, which is a nearest eligible candidate. -/
theorem C3_ranking_sorted_and_nearest :
    (∀ (request : ServiceRequest) (d : ℚ → ℚ → ℚ → ℚ → ℚ)
        (pps : List ProviderProfile) (profs : List Profile),
      List.Perm (providersWithDistance request d pps profs)
        ((candidateRecords request d pps profs).filter radiusOk)) ∧
    (∀ (request : ServiceRequest) (d : ℚ → ℚ → ℚ → ℚ → ℚ)
        (pps : List ProviderProfile) (profs : List Profile) (p : ProviderSummary),
      p ∈ providersWithDistance request d pps profs ↔
        p ∈ candidateRecords request d pps profs ∧ radiusOk p = true) ∧
    (∀ (request : ServiceRequest) (d : ℚ → ℚ → ℚ → ℚ → ℚ)
        (pps : List ProviderProfile) (profs : List Profile) (p : ProviderSummary),
      p ∈ providersWithDistance request d pps profs →
      ∃ rad, p.serviceRadius = some rad ∧ p.distance ≤ rad) ∧
    (∀ (request : ServiceRequest) (d : ℚ → ℚ → ℚ → ℚ → ℚ)
        (pps : List ProviderProfile) (profs : List Profile),
      List.Sorted distLe (providersWithDistance request d pps profs)) ∧
    (∀ (db : Database) (d : ℚ → ℚ → ℚ → ℚ → ℚ) (reqId : Nat) (now : ℚ)
        (r : ServiceRequest) (p : ProviderSummary) (rest : List ProviderSummary),
      db.service_requests.find? (fun x => decide (x.id = reqId)) = some r →
      requestCategories db r.category_id ≠ [] →
      providersWithDistance r d (eligibleProfiles db r.category_id)
        (fetchedProfiles db r.category_id) = p :: rest →
      (∀ q ∈ p :: rest, p.distance ≤ q.distance) ∧
      (assignProvider db d reqId now).1.provider = some p ∧
      (∀ (i : Nat) (row : ServiceRequest), db.service_requests[i]? = some row →
        decide (row.id = reqId) = true →
        (assignProvider db d reqId now).2.service_requests[i]? =
          some { row with
                 provider_id := some p.providerId
                 status := RequestStatus.assigned
                 assigned_at := some now })) := by
  have hmem : ∀ (request : ServiceRequest) (d : ℚ → ℚ → ℚ → ℚ → ℚ)
      (pps : List ProviderProfile) (profs : List Profile) (p : ProviderSummary),
      p ∈ providersWithDistance request d pps profs ↔
        p ∈ candidateRecords request d pps profs ∧ radiusOk p = true := by
    intro request d pps profs p
    unfold providersWithDistance
    rw [List.mem_insertionSort, List.mem_filter]
  refine ⟨?_, hmem, ?_, ?_, ?_⟩
  · intro request d pps profs
    exact List.perm_insertionSort distLe _
  · intro request d pps profs p hp
    have h2 := ((hmem request d pps profs p).mp hp).2
    unfold radiusOk at h2
    cases hrad : p.serviceRadius with
    | none => rw [hrad] at h2; simp at h2
    | some rad =>
      rw [hrad] at h2
      exact ⟨rad, rfl, by simpa using h2⟩
  · intro request d pps profs
    exact List.sorted_insertionSort distLe _
  · intro db d reqId now r p rest hfind hcat hpwd
    refine ⟨?_, ?_, ?_⟩
    · have hs : List.Sorted distLe (p :: rest) := by
        rw [← hpwd]
        exact List.sorted_insertionSort distLe _
      intro q hq
      rcases List.mem_cons.mp hq with hq1 | hq2
      · rw [hq1]
      · exact List.rel_of_sorted_cons hs q hq2
    · rw [assignProvider_success hfind hcat hpwd]
    · intro i row hi hrow
      rw [assignProvider_success hfind hcat hpwd]
      show (updateServiceRequests db (fun x => decide (x.id = reqId))
          (assignSet p.providerId now) none now).service_requests[i]? = _
      rw [updateServiceRequests_rows, List.getElem?_map, hi]
      have happ := @applyUpdateRow_assignSet (fun x => decide (x.id = reqId))
        p.providerId now row hrow
      rw [Option.map_some']
      rw [happ]
      rfl

/-- Witness for C3: in `exDbMain` the single candidate is within radius,
the engine commits it, and request 1 is rewritten to provider 7 with
status `assigned` at time 9. -/
theorem C3_ranking_sorted_and_nearest_witness :
    (∃ rad, (some 10 : Option ℚ) = some rad ∧ (3 : ℚ) ≤ rad) ∧
    ((assignProvider exDbMain exDist3 1 9).1.provider =
      some { providerId := 7, providerName := "Ravi", distance := 3,
             serviceRadius := some 10 }) ∧
    ((assignProvider exDbMain exDist3 1 9).2.service_requests[0]? =
      some { exReqPending with
             provider_id := some 7
             status := RequestStatus.assigned
             assigned_at := some 9 }) := by
  have hE := C3_ranking_sorted_and_nearest.2.2.2.2 exDbMain exDist3 1 9 exReqPending
    { providerId := 7, providerName := "Ravi", distance := 3, serviceRadius := some 10 } []
    (by decide) (by decide) (by decide)
  have hC := C3_ranking_sorted_and_nearest.2.2.1 exReqPending exDist3
    (eligibleProfiles exDbMain 3) (fetchedProfiles exDbMain 3)
    { providerId := 7, providerName := "Ravi", distance := 3, serviceRadius := some 10 }
    (by decide)
  exact ⟨hC, hE.2.1, hE.2.2 0 exReqPending (by rfl) (by decide)⟩

/-! Claim C8: independence of the batch loop. -/

theorem parseRadius_none : parseRadius none = 10 := rfl

/-- C8: on the batch success path the requests are processed
independently: the response reports success true with `assignedCount`
equal to exactly the number of pending matching requests that are in range
and whose update does not fail, and the inserted notifications are exactly
the resident/provider pair for each such request, in order — a request
whose update fails contributes neither to the count nor a notification,
and the remaining requests are still processed. -/
theorem C8_batch_processes_requests_independently (db : Database)
    (d : ℚ → ℚ → ℚ → ℚ → ℚ) (userId : Nat) (f : Nat → Bool) (now : ℚ)
    (pp : ProviderProfile) (pd : Profile)
    (hfind : db.provider_profiles.find? (fun x => decide (x.user_id = userId)) = some pp)
    (havail : pp.is_available = true)
    (hprof : db.profiles.find? (fun p => decide (p.id = userId)) = some pd)
    (hcats : providerCats db pp.id ≠ [])
    (hpend : pendingMatching db ((providerCats db pp.id).map (fun pc => pc.category_id)) ≠ []) :
    (assignPendingRequests db d userId f now).1 =
      { status := 200, success := some true
        message := some ("Assigned " ++
          toString ((pendingMatching db
              ((providerCats db pp.id).map (fun pc => pc.category_id))).filter
            (batchAssignedPred d pd.location_lat pd.location_lng
              (parseRadius pp.service_area_radius_km) f)).length ++ " pending request(s)")
        error := none
        assignedCount := some ((pendingMatching db
            ((providerCats db pp.id).map (fun pc => pc.category_id))).filter
          (batchAssignedPred d pd.location_lat pd.location_lng
            (parseRadius pp.service_area_radius_km) f)).length } ∧
    (assignPendingRequests db d userId f now).2.notifications =
      db.notifications ++ ((pendingMatching db
          ((providerCats db pp.id).map (fun pc => pc.category_id))).filter
        (batchAssignedPred d pd.location_lat pd.location_lng
          (parseRadius pp.service_area_radius_km) f)).flatMap (batchNotifs userId) := by
  rw [assignPendingRequests_run hfind havail hprof hcats hpend]
  have hspec := foldl_processRequest_spec pp.id userId d pd.location_lat pd.location_lng
    (parseRadius pp.service_area_radius_km) f now
    (pendingMatching db ((providerCats db pp.id).map (fun pc => pc.category_id))) db 0
  rw [Nat.zero_add] at hspec
  dsimp only
  rw [hspec.1, hspec.2]
  exact ⟨rfl, rfl⟩

/-- Witness for C8 on `exDbBatch`: requests 11 and 12 are within range,
the update for 12 fails and is skipped, 13 is out of range; exactly
request 11 is counted and notified. -/
theorem C8_batch_processes_requests_independently_witness :
    (assignPendingRequests exDbBatch exDistLat 70 exFails12 0).1 =
      { status := 200, success := some true
        message := some ("Assigned " ++
          toString ((pendingMatching exDbBatch
              ((providerCats exDbBatch 7).map (fun pc => pc.category_id))).filter
            (batchAssignedPred exDistLat (some 0) (some 0) 10 exFails12)).length
          ++ " pending request(s)")
        error := none
        assignedCount := some ((pendingMatching exDbBatch
            ((providerCats exDbBatch 7).map (fun pc => pc.category_id))).filter
          (batchAssignedPred exDistLat (some 0) (some 0) 10 exFails12)).length } ∧
    (assignPendingRequests exDbBatch exDistLat 70 exFails12 0).2.notifications =
      exDbBatch.notifications ++ ((pendingMatching exDbBatch
          ((providerCats exDbBatch 7).map (fun pc => pc.category_id))).filter
        (batchAssignedPred exDistLat (some 0) (some 0) 10 exFails12)).flatMap
        (batchNotifs 70) :=
  C8_batch_processes_requests_independently exDbBatch exDistLat 70 exFails12 0
    exProvider exProfile70Origin (by decide) (by decide) (by decide) (by decide) (by decide)

/-! Claim C10: null service radius defaults to 10 km in the batch loop. -/

/-- C10: the radius parser maps a null `service_area_radius_km` to 10, and
on the batch success path a provider with a null radius has each pending
request judged against the 10 km default when counting assignments. -/
theorem C10_null_radius_defaults_to_ten :
    parseRadius none = 10 ∧
    (∀ (db : Database) (d : ℚ → ℚ → ℚ → ℚ → ℚ) (userId : Nat) (f : Nat → Bool) (now : ℚ)
        (pp : ProviderProfile) (pd : Profile),
      db.provider_profiles.find? (fun x => decide (x.user_id = userId)) = some pp →
      pp.is_available = true →
      db.profiles.find? (fun p => decide (p.id = userId)) = some pd →
      providerCats db pp.id ≠ [] →
      pendingMatching db ((providerCats db pp.id).map (fun pc => pc.category_id)) ≠ [] →
      pp.service_area_radius_km = none →
      (assignPendingRequests db d userId f now).1.assignedCount =
        some ((pendingMatching db
            ((providerCats db pp.id).map (fun pc => pc.category_id))).filter
          (batchAssignedPred d pd.location_lat pd.location_lng 10 f)).length) := by
  refine ⟨rfl, ?_⟩
  intro db d userId f now pp pd hfind havail hprof hcats hpend hrad
  rw [assignPendingRequests_run hfind havail hprof hcats hpend]
  have hspec := foldl_processRequest_spec pp.id userId d pd.location_lat pd.location_lng
    (parseRadius pp.service_area_radius_km) f now
    (pendingMatching db ((providerCats db pp.id).map (fun pc => pc.category_id))) db 0
  rw [Nat.zero_add] at hspec
  dsimp only
  rw [hspec.1, hrad, parseRadius_none]

/-- Witness for C10 on `exDbBatchNullRad`: with a null radius the request
at latitude 9 is within the 10 km default and the one at latitude 11 is
not. -/
theorem C10_null_radius_defaults_to_ten_witness :
    (assignPendingRequests exDbBatchNullRad exDistLat 70 exNoFails 0).1.assignedCount =
      some ((pendingMatching exDbBatchNullRad
          ((providerCats exDbBatchNullRad 7).map (fun pc => pc.category_id))).filter
        (batchAssignedPred exDistLat (some 0) (some 0) 10 exNoFails)).length :=
  C10_null_radius_defaults_to_ten.2 exDbBatchNullRad exDistLat 70 exNoFails 0
    { exProvider with service_area_radius_km := none } exProfile70Origin
    (by decide) (by decide) (by decide) (by decide) (by decide) (by decide)

/-! Interval-arithmetic toolkit for the haversine fixture. -/

theorem sin_poly_bounds {x : ℝ} (h0 : 0 ≤ x) (h1 : x ≤ 1) :
    x - x ^ 3 / 6 - x ^ 4 * (5 / 96) ≤ Real.sin x ∧
      Real.sin x ≤ x - x ^ 3 / 6 + x ^ 4 * (5 / 96) := by
  have hb := Real.sin_bound (by rw [abs_of_nonneg h0]; exact h1)
  rw [abs_of_nonneg h0] at hb
  have hb2 := abs_le.mp hb
  constructor <;> linarith [hb2.1, hb2.2]

theorem sin_mono_bounds {lo hi x : ℝ} (h0 : 0 ≤ lo) (h1 : hi ≤ 1)
    (hl : lo ≤ x) (hh : x ≤ hi) :
    Real.sin lo ≤ Real.sin x ∧ Real.sin x ≤ Real.sin hi := by
  have hpi2 : (1 : ℝ) ≤ Real.pi / 2 := by nlinarith [Real.pi_gt_three]
  have hneg : -(Real.pi / 2) ≤ (0 : ℝ) := by nlinarith [Real.pi_gt_three]
  have hm := Real.strictMonoOn_sin.monotoneOn
  constructor
  · exact hm ⟨by linarith, by linarith⟩ ⟨by linarith, by linarith⟩ hl
  · exact hm ⟨by linarith, by linarith⟩ ⟨by linarith, by linarith⟩ hh

theorem sin_rat_bounds {x ql qu A B : ℝ} (hql : 0 ≤ ql) (hqu : qu ≤ 1)
    (hxl : ql ≤ x) (hxu : x ≤ qu)
    (hA : A ≤ ql - ql ^ 3 / 6 - ql ^ 4 * (5 / 96))
    (hB : qu - qu ^ 3 / 6 + qu ^ 4 * (5 / 96) ≤ B) :
    A ≤ Real.sin x ∧ Real.sin x ≤ B := by
  have hq : ql ≤ qu := le_trans hxl hxu
  have h1 := sin_mono_bounds hql hqu hxl hxu
  have h2 := sin_poly_bounds hql (le_trans hq hqu)
  have h3 := sin_poly_bounds (le_trans hql hq) hqu
  constructor
  · linarith [h1.1, h2.1]
  · linarith [h1.2, h3.2]

theorem sin_double_bounds {t slo shi clo chi : ℝ}
    (hs : slo ≤ Real.sin t ∧ Real.sin t ≤ shi)
    (hc : clo ≤ Real.cos t ∧ Real.cos t ≤ chi)
    (h0s : 0 ≤ slo) (h0c : 0 ≤ clo) :
    2 * (slo * clo) ≤ Real.sin (2 * t) ∧ Real.sin (2 * t) ≤ 2 * (shi * chi) := by
  rw [Real.sin_two_mul]
  have hl : slo * clo ≤ Real.sin t * Real.cos t :=
    mul_le_mul hs.1 hc.1 h0c (le_trans h0s hs.1)
  have hu : Real.sin t * Real.cos t ≤ shi * chi :=
    mul_le_mul hs.2 hc.2 (le_trans h0c hc.1) (le_trans (le_trans h0s hs.1) hs.2)
  constructor <;> linarith

theorem cos_double_bounds {t slo shi : ℝ}
    (hs : slo ≤ Real.sin t ∧ Real.sin t ≤ shi) (h0 : 0 ≤ slo) :
    1 - 2 * shi ^ 2 ≤ Real.cos (2 * t) ∧ Real.cos (2 * t) ≤ 1 - 2 * slo ^ 2 := by
  have hid : Real.cos (2 * t) = 1 - 2 * Real.sin t ^ 2 := by
    have hpyth := Real.sin_sq_add_cos_sq t
    rw [Real.cos_two_mul']
    linarith
  rw [hid]
  have h2 : slo ^ 2 ≤ Real.sin t ^ 2 := by nlinarith [hs.1, hs.2]
  have h3 : Real.sin t ^ 2 ≤ shi ^ 2 := by nlinarith [hs.1, hs.2, h0]
  constructor <;> linarith

theorem mul_bounds {x y a b c e : ℝ} (hx : a ≤ x ∧ x ≤ b) (hy : c ≤ y ∧ y ≤ e)
    (ha : 0 ≤ a) (hc : 0 ≤ c) : a * c ≤ x * y ∧ x * y ≤ b * e := by
  constructor
  · exact mul_le_mul hx.1 hy.1 hc (le_trans ha hx.1)
  · exact mul_le_mul hx.2 hy.2 (le_trans hc hy.1) (le_trans (le_trans ha hx.1) hx.2)

/-! Concrete sine and cosine bounds for the fixture angles. -/

theorem sinA_base :
    (0.0580913645 : ℝ) ≤ Real.sin (angA) ∧ Real.sin (angA) ≤ 0.0580925722 := by
  have harg1 : (0.0581246879 : ℝ) ≤ angA := by
    unfold angA
    nlinarith [Real.pi_gt_d6]
  have harg2 : (angA) ≤ (0.0581247065 : ℝ) := by
    unfold angA
    nlinarith [Real.pi_lt_d6]
  exact sin_rat_bounds (by norm_num) (by norm_num) harg1 harg2 (by norm_num) (by norm_num)

theorem sinB16_base :
    (0.0241255587 : ℝ) ≤ Real.sin (angB / 16) ∧ Real.sin (angB / 16) ≤ 0.0241256019 := by
  have harg1 : (0.0241279174 : ℝ) ≤ angB / 16 := by
    unfold angB
    nlinarith [Real.pi_gt_d6]
  have harg2 : (angB / 16) ≤ (0.0241279252 : ℝ) := by
    unfold angB
    nlinarith [Real.pi_lt_d6]
  exact sin_rat_bounds (by norm_num) (by norm_num) harg1 harg2 (by norm_num) (by norm_num)

theorem sinB8_base :
    (0.0482368240 : ℝ) ≤ Real.sin (angB / 8) ∧ Real.sin (angB / 8) ≤ 0.0482374045 := by
  have harg1 : (0.0482558348 : ℝ) ≤ angB / 8 := by
    unfold angB
    nlinarith [Real.pi_gt_d6]
  have harg2 : (angB / 8) ≤ (0.0482558503 : ℝ) := by
    unfold angB
    nlinarith [Real.pi_lt_d6]
  exact sin_rat_bounds (by norm_num) (by norm_num) harg1 harg2 (by norm_num) (by norm_num)

theorem cosB8_base :
    (0.9988359106 : ℝ) ≤ Real.cos (angB / 8) ∧ Real.cos (angB / 8) ≤ 0.9988359149 := by
  have h := cos_double_bounds sinB16_base (by norm_num)
  rw [show 2 * (angB / 16) = angB / 8 by ring] at h
  constructor <;> nlinarith [h.1, h.2]

theorem sinB4_base :
    (0.0963613440 : ℝ) ≤ Real.sin (angB / 4) ∧ Real.sin (angB / 4) ≤ 0.0963625042 := by
  have h := sin_double_bounds sinB8_base cosB8_base (by norm_num) (by norm_num)
  rw [show 2 * (angB / 8) = angB / 4 by ring] at h
  constructor <;> nlinarith [h.1, h.2]

theorem cosB4_base :
    (0.9953463056 : ℝ) ≤ Real.cos (angB / 4) ∧ Real.cos (angB / 4) ≤ 0.9953464177 := by
  have h := cos_double_bounds sinB8_base (by norm_num)
  rw [show 2 * (angB / 8) = angB / 4 by ring] at h
  constructor <;> nlinarith [h.1, h.2]

theorem sinB2_base :
    (0.1918258155 : ℝ) ≤ Real.sin (angB / 2) ∧ Real.sin (angB / 2) ≤ 0.1918281468 := by
  have h := sin_double_bounds sinB4_base cosB4_base (by norm_num) (by norm_num)
  rw [show 2 * (angB / 4) = angB / 2 by ring] at h
  constructor <;> nlinarith [h.1, h.2]

theorem cosB2_base :
    (0.9814285355 : ℝ) ≤ Real.cos (angB / 2) ∧ Real.cos (angB / 2) ≤ 0.9814289828 := by
  have h := cos_double_bounds sinB4_base (by norm_num)
  rw [show 2 * (angB / 4) = angB / 2 by ring] at h
  constructor <;> nlinarith [h.1, h.2]

theorem sinB_base :
    (0.3765266583 : ℝ) ≤ Real.sin (angB) ∧ Real.sin (angB) ≤ 0.3765314060 := by
  have h := sin_double_bounds sinB2_base cosB2_base (by norm_num) (by norm_num)
  rw [show 2 * (angB / 2) = angB by ring] at h
  constructor <;> nlinarith [h.1, h.2]

theorem sinL1x16_base :
    (0.0443959649 : ℝ) ≤ Real.sin (angL1 / 16) ∧ Real.sin (angL1 / 16) ≤ 0.0443963844 := by
  have harg1 : (0.0444107662 : ℝ) ≤ angL1 / 16 := by
    unfold angL1
    nlinarith [Real.pi_gt_d6]
  have harg2 : (angL1 / 16) ≤ (0.0444107804 : ℝ) := by
    unfold angL1
    nlinarith [Real.pi_lt_d6]
  exact sin_rat_bounds (by norm_num) (by norm_num) harg1 harg2 (by norm_num) (by norm_num)

theorem sinL1x8_base :
    (0.0887015012 : ℝ) ≤ Real.sin (angL1 / 8) ∧ Real.sin (angL1 / 8) ≤ 0.0887080130 := by
  have harg1 : (0.0888215324 : ℝ) ≤ angL1 / 8 := by
    unfold angL1
    nlinarith [Real.pi_gt_d6]
  have harg2 : (angL1 / 8) ≤ (0.0888215608 : ℝ) := by
    unfold angL1
    nlinarith [Real.pi_lt_d6]
  exact sin_rat_bounds (by norm_num) (by norm_num) harg1 harg2 (by norm_num) (by norm_num)

theorem cosL1x8_base :
    (0.9960579221 : ℝ) ≤ Real.cos (angL1 / 8) ∧ Real.cos (angL1 / 8) ≤ 0.9960579967 := by
  have h := cos_double_bounds sinL1x16_base (by norm_num)
  rw [show 2 * (angL1 / 16) = angL1 / 8 by ring] at h
  constructor <;> nlinarith [h.1, h.2]

theorem sinL1x4_base :
    (0.1767036659 : ℝ) ≤ Real.sin (angL1 / 4) ∧ Real.sin (angL1 / 4) ≤ 0.1767166515 := by
  have h := sin_double_bounds sinL1x8_base cosL1x8_base (by norm_num) (by norm_num)
  rw [show 2 * (angL1 / 8) = angL1 / 4 by ring] at h
  constructor <;> nlinarith [h.1, h.2]

theorem cosL1x4_base :
    (0.9842617768 : ℝ) ≤ Real.cos (angL1 / 4) ∧ Real.cos (angL1 / 4) ≤ 0.9842640874 := by
  have h := cos_double_bounds sinL1x8_base (by norm_num)
  rw [show 2 * (angL1 / 8) = angL1 / 4 by ring] at h
  constructor <;> nlinarith [h.1, h.2]

theorem sinL1x2_base :
    (0.3478453283 : ℝ) ≤ Real.sin (angL1 / 2) ∧ Real.sin (angL1 / 2) ≤ 0.3478717075 := by
  have h := sin_double_bounds sinL1x4_base cosL1x4_base (by norm_num) (by norm_num)
  rw [show 2 * (angL1 / 4) = angL1 / 2 by ring] at h
  constructor <;> nlinarith [h.1, h.2]

theorem cosL1_base :
    (0.7579705502 : ℝ) ≤ Real.cos (angL1) ∧ Real.cos (angL1) ≤ 0.7580072552 := by
  have h := cos_double_bounds sinL1x2_base (by norm_num)
  rw [show 2 * (angL1 / 2) = angL1 by ring] at h
  constructor <;> nlinarith [h.1, h.2]

theorem sinL2x16_base :
    (0.0371365391 : ℝ) ≤ Real.sin (angL2 / 16) ∧ Real.sin (angL2 / 16) ≤ 0.0371367494 := by
  have harg1 : (0.0371451802 : ℝ) ≤ angL2 / 16 := by
    unfold angL2
    nlinarith [Real.pi_gt_d6]
  have harg2 : (angL2 / 16) ≤ (0.0371451921 : ℝ) := by
    unfold angL2
    nlinarith [Real.pi_lt_d6]
  exact sin_rat_bounds (by norm_num) (by norm_num) harg1 harg2 (by norm_num) (by norm_num)

theorem sinL2x8_base :
    (0.0742204384 : ℝ) ≤ Real.sin (angL2 / 8) ∧ Real.sin (angL2 / 8) ≤ 0.0742236352 := by
  have harg1 : (0.0742903604 : ℝ) ≤ angL2 / 8 := by
    unfold angL2
    nlinarith [Real.pi_gt_d6]
  have harg2 : (angL2 / 8) ≤ (0.0742903842 : ℝ) := by
    unfold angL2
    nlinarith [Real.pi_lt_d6]
  exact sin_rat_bounds (by norm_num) (by norm_num) harg1 harg2 (by norm_num) (by norm_num)

theorem cosL2x8_base :
    (0.9972417236 : ℝ) ≤ Real.cos (angL2 / 8) ∧ Real.cos (angL2 / 8) ≤ 0.9972417550 := by
  have h := cos_double_bounds sinL2x16_base (by norm_num)
  rw [show 2 * (angL2 / 16) = angL2 / 8 by ring] at h
  constructor <;> nlinarith [h.1, h.2]

theorem sinL2x4_base :
    (0.1480314358 : ℝ) ≤ Real.sin (angL2 / 4) ∧ Real.sin (angL2 / 4) ≤ 0.1480378165 := by
  have h := sin_double_bounds sinL2x8_base cosL2x8_base (by norm_num) (by norm_num)
  rw [show 2 * (angL2 / 8) = angL2 / 4 by ring] at h
  constructor <;> nlinarith [h.1, h.2]

theorem cosL2x4_base :
    (0.9889817039 : ℝ) ≤ Real.cos (angL2 / 4) ∧ Real.cos (angL2 / 4) ≤ 0.9889826531 := by
  have h := cos_double_bounds sinL2x8_base (by norm_num)
  rw [show 2 * (angL2 / 8) = angL2 / 4 by ring] at h
  constructor <;> nlinarith [h.1, h.2]

theorem sinL2x2_base :
    (0.2928007632 : ℝ) ≤ Real.sin (angL2 / 2) ∧ Real.sin (angL2 / 2) ≤ 0.2928136651 := by
  have h := sin_double_bounds sinL2x4_base cosL2x4_base (by norm_num) (by norm_num)
  rw [show 2 * (angL2 / 4) = angL2 / 2 by ring] at h
  constructor <;> nlinarith [h.1, h.2]

theorem cosL2_base :
    (0.8285203150 : ℝ) ≤ Real.cos (angL2) ∧ Real.cos (angL2) ≤ 0.8285354262 := by
  have h := cos_double_bounds sinL2x2_base (by norm_num)
  rw [show 2 * (angL2 / 2) = angL2 by ring] at h
  constructor <;> nlinarith [h.1, h.2]

theorem sinWlo8_base :
    (0.0385929496 : ℝ) ≤ Real.sin ((3935 / 12742 : ℝ) / 8) ∧ Real.sin ((3935 / 12742 : ℝ) / 8) ≤ 0.0385931810 :=
  sin_rat_bounds (by norm_num) (by norm_num) (le_refl _) (le_refl _) (by norm_num) (by norm_num)

theorem sinWlo4_base :
    (0.0771267557 : ℝ) ≤ Real.sin ((3935 / 12742 : ℝ) / 4) ∧ Real.sin ((3935 / 12742 : ℝ) / 4) ≤ 0.0771304567 :=
  sin_rat_bounds (by norm_num) (by norm_num) (le_refl _) (le_refl _) (by norm_num) (by norm_num)

theorem cosWlo4_base :
    (0.9970211327 : ℝ) ≤ Real.cos ((3935 / 12742 : ℝ) / 4) ∧ Real.cos ((3935 / 12742 : ℝ) / 4) ≤ 0.9970211685 := by
  have h := cos_double_bounds sinWlo8_base (by norm_num)
  rw [show 2 * ((3935 / 12742 : ℝ) / 8) = (3935 / 12742 : ℝ) / 4 by ring] at h
  constructor <;> nlinarith [h.1, h.2]

theorem sinWlo2_base :
    (0.1537940106 : ℝ) ≤ Real.sin ((3935 / 12742 : ℝ) / 2) ∧ Real.sin ((3935 / 12742 : ℝ) / 2) ≤ 0.1538013962 := by
  have h := sin_double_bounds sinWlo4_base cosWlo4_base (by norm_num) (by norm_num)
  rw [show 2 * ((3935 / 12742 : ℝ) / 4) = (3935 / 12742 : ℝ) / 2 by ring] at h
  constructor <;> nlinarith [h.1, h.2]

theorem cosWlo2_base :
    (0.9881017852 : ℝ) ≤ Real.cos ((3935 / 12742 : ℝ) / 2) ∧ Real.cos ((3935 / 12742 : ℝ) / 2) ≤ 0.9881029272 := by
  have h := cos_double_bounds sinWlo4_base (by norm_num)
  rw [show 2 * ((3935 / 12742 : ℝ) / 4) = (3935 / 12742 : ℝ) / 2 by ring] at h
  constructor <;> nlinarith [h.1, h.2]

theorem sinWlo_base :
    (0.3039282728 : ℝ) ≤ Real.sin ((3935 / 12742 : ℝ)) ∧ Real.sin ((3935 / 12742 : ℝ)) ≤ 0.3039432196 := by
  have h := sin_double_bounds sinWlo2_base cosWlo2_base (by norm_num) (by norm_num)
  rw [show 2 * ((3935 / 12742 : ℝ) / 2) = (3935 / 12742 : ℝ) by ring] at h
  constructor <;> nlinarith [h.1, h.2]

theorem sinWhi4_base :
    (0.0773223521 : ℝ) ≤ Real.sin ((3945 / 12742 : ℝ) / 4) ∧ Real.sin ((3945 / 12742 : ℝ) / 4) ≤ 0.0773260909 :=
  sin_rat_bounds (by norm_num) (by norm_num) (le_refl _) (le_refl _) (by norm_num) (by norm_num)

theorem sinWhi2_base :
    (0.1541548211 : ℝ) ≤ Real.sin ((3945 / 12742 : ℝ) / 2) ∧ Real.sin ((3945 / 12742 : ℝ) / 2) ≤ 0.1542146412 :=
  sin_rat_bounds (by norm_num) (by norm_num) (le_refl _) (le_refl _) (by norm_num) (by norm_num)

theorem cosWhi2_base :
    (0.9880413513 : ℝ) ≤ Real.cos ((3945 / 12742 : ℝ) / 2) ∧ Real.cos ((3945 / 12742 : ℝ) / 2) ≤ 0.9880425078 := by
  have h := cos_double_bounds sinWhi4_base (by norm_num)
  rw [show 2 * ((3945 / 12742 : ℝ) / 4) = (3945 / 12742 : ℝ) / 2 by ring] at h
  constructor <;> nlinarith [h.1, h.2]

theorem sinWhi_base :
    (0.3046226754 : ℝ) ≤ Real.sin ((3945 / 12742 : ℝ)) ∧ Real.sin ((3945 / 12742 : ℝ)) ≤ 0.3047412417 := by
  have h := sin_double_bounds sinWhi2_base cosWhi2_base (by norm_num) (by norm_num)
  rw [show 2 * ((3945 / 12742 : ℝ) / 2) = (3945 / 12742 : ℝ) by ring] at h
  constructor <;> nlinarith [h.1, h.2]

theorem fixA_bounds :
    (0.0924067755 : ℝ) ≤ fixA ∧ fixA ≤ 0.0924150967 := by
  have hA := sinA_base
  have hB := sinB_base
  have h1 := cosL1_base
  have h2 := cosL2_base
  have hAA := mul_bounds hA hA (by norm_num) (by norm_num)
  have hBB := mul_bounds hB hB (by norm_num) (by norm_num)
  have hCC := mul_bounds h1 h2 (by norm_num) (by norm_num)
  have hP := mul_bounds hCC hBB (by norm_num) (by norm_num)
  unfold fixA
  constructor <;> nlinarith [hAA.1, hAA.2, hP.1, hP.2]

/-! Assembly of the haversine fixture bound. -/

theorem calculateDistance_eq (lat1 lon1 lat2 lon2 : ℝ) :
    calculateDistance lat1 lon1 lat2 lon2 =
      6371 * (2 * atan2
        (Real.sqrt (Real.sin (((lat2 - lat1) * (Real.pi / 180)) / 2) *
            Real.sin (((lat2 - lat1) * (Real.pi / 180)) / 2) +
          Real.cos (lat1 * (Real.pi / 180)) * Real.cos (lat2 * (Real.pi / 180)) *
            (Real.sin (((lon2 - lon1) * (Real.pi / 180)) / 2) *
              Real.sin (((lon2 - lon1) * (Real.pi / 180)) / 2))))
        (Real.sqrt (1 - (Real.sin (((lat2 - lat1) * (Real.pi / 180)) / 2) *
            Real.sin (((lat2 - lat1) * (Real.pi / 180)) / 2) +
          Real.cos (lat1 * (Real.pi / 180)) * Real.cos (lat2 * (Real.pi / 180)) *
            (Real.sin (((lon2 - lon1) * (Real.pi / 180)) / 2) *
              Real.sin (((lon2 - lon1) * (Real.pi / 180)) / 2)))))) := rfl

theorem fixA_fixture_eq :
    Real.sin (((34.0522 - 40.7128 : ℝ) * (Real.pi / 180)) / 2) *
        Real.sin (((34.0522 - 40.7128 : ℝ) * (Real.pi / 180)) / 2) +
      Real.cos ((40.7128 : ℝ) * (Real.pi / 180)) * Real.cos ((34.0522 : ℝ) * (Real.pi / 180)) *
        (Real.sin ((((-118.2437 : ℝ) - -74.0060) * (Real.pi / 180)) / 2) *
          Real.sin ((((-118.2437 : ℝ) - -74.0060) * (Real.pi / 180)) / 2)) = fixA := by
  have e1 : ((34.0522 - 40.7128 : ℝ) * (Real.pi / 180)) / 2 = -angA := by
    unfold angA
    rw [show (34.0522 - 40.7128 : ℝ) = -6.6606 by norm_num]
    ring
  have e2 : (((-118.2437 : ℝ) - -74.0060) * (Real.pi / 180)) / 2 = -angB := by
    unfold angB
    rw [show ((-118.2437 : ℝ) - -74.0060) = -44.2377 by norm_num]
    ring
  have e3 : (40.7128 : ℝ) * (Real.pi / 180) = angL1 := by unfold angL1; ring
  have e4 : (34.0522 : ℝ) * (Real.pi / 180) = angL2 := by unfold angL2; ring
  rw [e1, e2, e3, e4, Real.sin_neg, Real.sin_neg]
  unfold fixA
  ring

theorem fixture_dist_eq :
    calculateDistance 40.7128 (-74.0060) 34.0522 (-118.2437) =
      6371 * (2 * atan2 (Real.sqrt fixA) (Real.sqrt (1 - fixA))) := by
  rw [calculateDistance_eq, fixA_fixture_eq]

theorem atan2_zero_one : atan2 0 1 = 0 := by
  unfold atan2
  rw [if_pos one_pos]
  simp [Real.arctan_zero]

theorem atan2_sqrt_eq_arcsin {A : ℝ} (h0 : 0 ≤ A) (h1 : A < 1) :
    atan2 (Real.sqrt A) (Real.sqrt (1 - A)) = Real.arcsin (Real.sqrt A) := by
  have hx : 0 < Real.sqrt (1 - A) := Real.sqrt_pos.mpr (by linarith)
  unfold atan2
  rw [if_pos hx]
  have hm : Real.sqrt A ∈ Set.Ioo (-1 : ℝ) 1 := by
    constructor
    · linarith [Real.sqrt_nonneg A]
    · rw [Real.sqrt_lt' one_pos]
      nlinarith
  rw [Real.arcsin_eq_arctan hm, Real.sq_sqrt h0]

theorem fixture_bounds :
    3935 < calculateDistance 40.7128 (-74.0060) 34.0522 (-118.2437) ∧
      calculateDistance 40.7128 (-74.0060) 34.0522 (-118.2437) < 3945 := by
  rw [fixture_dist_eq]
  have hA := fixA_bounds
  have h0 : (0 : ℝ) ≤ fixA := by linarith [hA.1]
  have h1 : fixA < 1 := by linarith [hA.2]
  rw [atan2_sqrt_eq_arcsin h0 h1]
  have hlo : Real.sin ((3935 / 12742 : ℝ)) < Real.sqrt fixA := by
    have hstep : (0.3039432196 : ℝ) < Real.sqrt fixA := by
      rw [Real.lt_sqrt (by norm_num)]
      nlinarith [hA.1]
    linarith [sinWlo_base.2]
  have hhi : Real.sqrt fixA < Real.sin ((3945 / 12742 : ℝ)) := by
    have hstep : Real.sqrt fixA < (0.3046226754 : ℝ) := by
      rw [Real.sqrt_lt' (by norm_num)]
      nlinarith [hA.2]
    linarith [sinWhi_base.1]
  have hpihalf : (1 : ℝ) < Real.pi / 2 := by nlinarith [Real.pi_gt_three]
  have hsqmem : Real.sqrt fixA ∈ Set.Icc (-1 : ℝ) 1 := by
    constructor
    · linarith [Real.sqrt_nonneg fixA]
    · exact Real.sqrt_le_one.mpr (le_of_lt h1)
  have hm1 : Real.arcsin (Real.sin ((3935 / 12742 : ℝ))) < Real.arcsin (Real.sqrt fixA) :=
    Real.strictMonoOn_arcsin
      ⟨Real.neg_one_le_sin _, Real.sin_le_one _⟩ hsqmem hlo
  have hm2 : Real.arcsin (Real.sqrt fixA) < Real.arcsin (Real.sin ((3945 / 12742 : ℝ))) :=
    Real.strictMonoOn_arcsin hsqmem
      ⟨Real.neg_one_le_sin _, Real.sin_le_one _⟩ hhi
  rw [Real.arcsin_sin (by nlinarith) (by nlinarith)] at hm1
  rw [Real.arcsin_sin (by nlinarith) (by nlinarith)] at hm2
  constructor <;> nlinarith [hm1, hm2]

/-! Claim C6: properties of the distance calculator. -/

/-- C6: the distance calculator agrees with the haversine formula with
Earth radius 6371 km, vanishes on equal points, is symmetric in its two
points, and maps the New York / Los Angeles fixture into the interval
from 3935 to 3945 kilometers. -/
theorem C6_haversine_properties :
    (∀ lat lon : ℝ, calculateDistance lat lon lat lon = 0) ∧
    (∀ lat1 lon1 lat2 lon2 : ℝ,
      calculateDistance lat1 lon1 lat2 lon2 = calculateDistance lat2 lon2 lat1 lon1) ∧
    (∀ lat1 lon1 lat2 lon2 : ℝ,
      calculateDistance lat1 lon1 lat2 lon2 = haversineSpecDistance lat1 lon1 lat2 lon2) ∧
    (3935 ≤ calculateDistance 40.7128 (-74.0060) 34.0522 (-118.2437) ∧
      calculateDistance 40.7128 (-74.0060) 34.0522 (-118.2437) ≤ 3945) := by
  refine ⟨?_, ?_, ?_, ?_⟩
  · intro lat lon
    rw [calculateDistance_eq]
    rw [show ((lat - lat) * (Real.pi / 180)) / 2 = 0 by ring]
    simp [Real.sin_zero, atan2_zero_one]
  · intro a1 o1 a2 o2
    rw [calculateDistance_eq, calculateDistance_eq]
    have e1 : ∀ x y : ℝ,
        Real.sin (((x - y) * (Real.pi / 180)) / 2) * Real.sin (((x - y) * (Real.pi / 180)) / 2)
          = Real.sin (((y - x) * (Real.pi / 180)) / 2) *
              Real.sin (((y - x) * (Real.pi / 180)) / 2) := by
      intro x y
      rw [show ((x - y) * (Real.pi / 180)) / 2 = -(((y - x) * (Real.pi / 180)) / 2) by ring,
        Real.sin_neg]
      ring
    have ha : Real.sin (((a2 - a1) * (Real.pi / 180)) / 2) *
          Real.sin (((a2 - a1) * (Real.pi / 180)) / 2) +
        Real.cos (a1 * (Real.pi / 180)) * Real.cos (a2 * (Real.pi / 180)) *
          (Real.sin (((o2 - o1) * (Real.pi / 180)) / 2) *
            Real.sin (((o2 - o1) * (Real.pi / 180)) / 2)) =
        Real.sin (((a1 - a2) * (Real.pi / 180)) / 2) *
          Real.sin (((a1 - a2) * (Real.pi / 180)) / 2) +
        Real.cos (a2 * (Real.pi / 180)) * Real.cos (a1 * (Real.pi / 180)) *
          (Real.sin (((o1 - o2) * (Real.pi / 180)) / 2) *
            Real.sin (((o1 - o2) * (Real.pi / 180)) / 2)) := by
      rw [e1 a2 a1, e1 o2 o1]
      ring
    rw [ha]
  · intro lat1 lon1 lat2 lon2
    rfl
  · exact ⟨le_of_lt fixture_bounds.1, le_of_lt fixture_bounds.2⟩
